import Mathlib

/-!
# Callback bridge of `gensio/swig/python/gensio_python.h`

A shallow embedding of the Python callback bridge.  The Python runtime is an
explicit state `PyState`: the per-thread error indicator, a counter that names
the proxy objects minted by `SWIG_NewPointerObj`, and a chronological trace of
every runtime operation the bridge performs (guard acquire and release,
reference-count changes, attribute lookups, calls, raised errors, waiter
wake-ups).  Every C function of the header becomes a state-passing Lean
function of the same name.

Conventions of the embedding:
* the build is the `WITH_THREAD` one, where `OI_PY_STATE_GET` and
  `OI_PY_STATE_PUT` are `PyGILState_Ensure` and `PyGILState_Release`;
* integer widths are those of an LP64 platform (`unsigned int` 32 bits,
  `long` and `unsigned long` 64 bits);
* a listener method is an external function: it either raises or returns a
  value, and it keeps no reference to the argument tuple, so the tuple is
  deallocated by the bridge's `Py_DECREF(args)`;
* allocation inside the Python runtime (`PyTuple_New`, `PyInt_FromLong`, ...)
  is not checked by the source and is taken to succeed; the one allocation
  the source does check is the `malloc` of `gensio_acc_got_new`;
* adjacent C string literals are written as the one literal the compiler
  makes of them;
* an operation with undefined behaviour (a `Py_DECREF` through a pointer that
  was never assigned) sets the flag `undefined` of the state and ends the
  trace: what the program does from there on is not modelled;
* pointers the source dereferences without a test (`cb_data`, the acceptor's
  `handler_val`, the user data of a handle) are taken as present.
-/

namespace GensioPython

/-! ## Python values and objects -/

/-- SWIG type descriptors, the `SWIGTYPE_p_ ## name` of `swig_make_ref`. -/
inductive swig_type_info where
  | gensio
  | sergensio
  | gensio_acceptor
  deriving DecidableEq, Repr

/-- Exception classes that occur in the bridge. -/
inductive PyExc where
  | RuntimeError
  | Exception
  | MemoryError
  | OverflowError
  | SystemError
  | AttributeError
  | Other (name : String)
  deriving DecidableEq, Repr

/-- A raised Python error: exception class and message. -/
structure PyErr where
  exc : PyExc
  msg : String
  deriving DecidableEq, Repr

/-- Python objects the bridge builds, passes or receives through a `PyObject *`. -/
inductive PyVal where
  /-- The object `Py_None`. -/
  | None
  /-- A Python integer. -/
  | Int (n : Int)
  /-- A Python boolean (`Py_True` or `Py_False`). -/
  | Bool (b : Bool)
  /-- A string built by `OI_PI_FromString` from a C string. -/
  | Str (s : String)
  /-- A string built by `OI_PI_FromStringAndSize` from a byte buffer. -/
  | Bytes (data : List Nat)
  /-- The proxy number `id` minted by `SWIG_NewPointerObj` for the native `item`. -/
  | Ptr (id : Nat) (item : Nat) (ty : swig_type_info)
  /-- Any other Python object (a float, a list, an instance, ...). -/
  | Other (tag : Nat)
  /-- The null pointer, as in the slots of a freshly made tuple. -/
  | NULL
  deriving DecidableEq, Repr

/-- Objects whose reference count the bridge changes. -/
inductive Obj where
  /-- An object held through a `PyObject *` value. -/
  | val (v : PyVal)
  /-- The listener object behind the callback handle number `id`. -/
  | cb (id : Nat)
  /-- An argument tuple with the given items. -/
  | tuple (items : List PyVal)
  /-- The bound method returned by a successful attribute lookup. -/
  | attr (cb : Nat) (name : String)
  /-- The new reference to its result that a call returns. -/
  | result (v : PyVal)
  deriving DecidableEq, Repr

/-- One runtime operation performed by the bridge. -/
inductive Event where
  /-- The guard is acquired: `OI_PY_STATE_GET()`. -/
  | acquire
  /-- The guard is released: `OI_PY_STATE_PUT(s)`. -/
  | release
  /-- A proxy is minted with one reference: `SWIG_NewPointerObj`. -/
  | newPointerObj (id : Nat) (item : Nat) (ty : swig_type_info)
  /-- One reference is added: `Py_INCREF`. -/
  | incref (o : Obj)
  /-- One reference is dropped: `Py_DECREF`. -/
  | decref (o : Obj)
  /-- A method is looked up on a listener: `PyObject_GetAttrString`. -/
  | getattr (cb : Nat) (name : String)
  /-- A listener method is invoked: `PyObject_CallObject`. -/
  | call (cb : Nat) (name : String) (args : List PyVal)
  /-- The bridge raises an error: `PyErr_Format`. -/
  | raise (e : PyErr)
  /-- The waiter is woken: `wake_curr_waiter()`. -/
  | wake
  deriving DecidableEq, Repr

/-- The outcome of running a listener method. -/
inductive MethodOutcome where
  /-- The method raises: the call returns `NULL` with the error set. -/
  | raises (e : PyErr)
  /-- The method returns a value; the error indicator is not touched. -/
  | returns (v : PyVal)
  deriving DecidableEq, Repr

/-- The listener object behind a `swig_cb_val *`: its identity, the name of its
class, and for each attribute name the method found there, if any. -/
structure Listener where
  id : Nat
  className : String
  methods : String → Option (List PyVal → MethodOutcome)

/-- The state of the Python runtime as the bridge sees it. -/
structure PyState where
  /-- Every operation performed so far, oldest first. -/
  trace : List Event
  /-- The error indicator read by `PyErr_Occurred`. -/
  pending : Option PyErr
  /-- The number the next minted proxy gets. -/
  nextId : Nat
  /-- Whether the program has executed an operation with undefined behaviour.
  Once set, the trace stops at the last operation before it, and nothing the
  function returns besides the state has a meaning. -/
  undefined : Bool := false

/-! ## Runtime primitives -/

/-- Append one operation to the trace. -/
def emit (e : Event) (s : PyState) : PyState :=
  { s with trace := s.trace ++ [e] }

/-- The macro `OI_PY_STATE_GET()`, i.e. `PyGILState_Ensure()`. -/
def OI_PY_STATE_GET (s : PyState) : PyState := emit Event.acquire s

/-- The macro `OI_PY_STATE_PUT(s)`, i.e. `PyGILState_Release(s)`. -/
def OI_PY_STATE_PUT (s : PyState) : PyState := emit Event.release s

/-- The macro `Py_INCREF`. -/
def Py_INCREF (o : Obj) (s : PyState) : PyState := emit (Event.incref o) s

/-- The macro `Py_DECREF` on an object that is not an argument tuple. -/
def Py_DECREF (o : Obj) (s : PyState) : PyState := emit (Event.decref o) s

/-- The macro `Py_DECREF` on an argument tuple: the bridge holds the only
reference, so the tuple is deallocated and drops the reference it owns to each
of its items. -/
def Py_DECREF_tuple (args : List PyVal) (s : PyState) : PyState :=
  args.foldl (fun st v => Py_DECREF (Obj.val v) st) (Py_DECREF (Obj.tuple args) s)

/-- The call `PyErr_Format(exc, ...)` with the message already formatted. -/
def PyErr_Format (exc : PyExc) (msg : String) (s : PyState) : PyState :=
  { emit (Event.raise ⟨exc, msg⟩) s with pending := some ⟨exc, msg⟩ }

/-- The call `PyErr_Occurred()`. -/
def PyErr_Occurred (s : PyState) : Bool := s.pending.isSome

/-- Modelled from the spec: wake_curr_waiter is defined outside this header; it
is the process-wide wake notification, recorded as one trace entry. -/
def wake_curr_waiter (s : PyState) : PyState := emit Event.wake s

/-- The call `SWIG_NewPointerObj(item, class, 0)`: a fresh proxy with one reference. -/
def SWIG_NewPointerObj (item : Nat) (ty : swig_type_info) (s : PyState) : PyVal × PyState :=
  (PyVal.Ptr s.nextId item ty,
   { emit (Event.newPointerObj s.nextId item ty) s with nextId := s.nextId + 1 })

/-- The call `PyTuple_New(n)`: a tuple of `n` empty slots. -/
def PyTuple_New (n : Nat) : List PyVal := List.replicate n PyVal.NULL

/-- The macro `PyTuple_SET_ITEM(args, i, v)`: the tuple takes over the reference. -/
def PyTuple_SET_ITEM (args : List PyVal) (i : Nat) (v : PyVal) : List PyVal :=
  args.set i v

/-- The call `PyInt_FromLong(v)`. -/
def PyInt_FromLong (v : Int) : PyVal := PyVal.Int v

/-- The call `PyBool_FromLong(v)` on a C `bool`. -/
def PyBool_FromLong (v : Bool) : PyVal := PyVal.Bool v

/-- The largest `unsigned long`. -/
def ULONG_MAX : Nat := 2 ^ 64 - 1

/-- The conversion of an `unsigned long` to `long`. -/
def ulong_to_long (v : Nat) : Int :=
  if v % 2 ^ 64 < 2 ^ 63 then (v % 2 ^ 64 : Nat) else (v % 2 ^ 64 : Nat) - 2 ^ 64

/-- The conversion of an `unsigned long` to `unsigned int`. -/
def ulong_to_uint (v : Nat) : Nat := v % 2 ^ 32

/-- The call `PyLong_AsUnsignedLong(o)`: the value of a non-negative integer
that fits; otherwise an error is set and `(unsigned long) -1` is returned.  A
success leaves the error indicator as it was. -/
def PyLong_AsUnsignedLong (o : PyVal) (s : PyState) : Nat × PyState :=
  match o with
  | PyVal.Int n =>
    if n < 0 then
      (ULONG_MAX, { s with pending := some ⟨PyExc.OverflowError,
        "can't convert negative value to unsigned long"⟩ })
    else if (ULONG_MAX : Int) < n then
      (ULONG_MAX, { s with pending := some ⟨PyExc.OverflowError,
        "long int too large to convert"⟩ })
    else (n.toNat, s)
  | PyVal.Bool b => (if b then 1 else 0, s)
  | _ => (ULONG_MAX, { s with pending := some ⟨PyExc.SystemError,
        "bad argument to internal function"⟩ })

/-- Whether `PyLong_AsUnsignedLong` fails on the object, that is, sets an error
when none was pending. -/
def PyLong_AsUnsignedLong_fails (o : PyVal) : Bool :=
  (PyLong_AsUnsignedLong o { trace := [], pending := none, nextId := 0 }).2.pending.isSome

/-- The call `PyObject_GetAttrString(cb, name)` for a method name: the bound
method, or `NULL` with an `AttributeError` set. -/
def PyObject_GetAttrString (cb : Listener) (name : String) (s : PyState) :
    Option (List PyVal → MethodOutcome) × PyState :=
  let s := emit (Event.getattr cb.id name) s
  match cb.methods name with
  | some p => (some p, s)
  | none => (none, { s with pending := some ⟨PyExc.AttributeError, name⟩ })

/-- The call `PyObject_CallObject(p, args)` on the method `name` of `cb`. -/
def PyObject_CallObject (cb : Listener) (name : String)
    (p : List PyVal → MethodOutcome) (args : List PyVal) (s : PyState) :
    Option PyVal × PyState :=
  let s := emit (Event.call cb.id name args) s
  match p args with
  | MethodOutcome.raises e => (none, { s with pending := some e })
  | MethodOutcome.returns v => (some v, s)

/-! ## The bridge -/

/-- The native `swig_ref`: one `PyObject *`. -/
structure swig_ref where
  val : PyVal

/-- The function `ref_swig_cb_i`. -/
def ref_swig_cb_i (cb : Listener) (s : PyState) : Listener × PyState :=
  let s := OI_PY_STATE_GET s
  let s := Py_INCREF (Obj.cb cb.id) s
  let s := OI_PY_STATE_PUT s
  (cb, s)

/-- The function `swig_make_ref_i`. -/
def swig_make_ref_i (item : Nat) (cls : swig_type_info) (s : PyState) : swig_ref × PyState :=
  let s := OI_PY_STATE_GET s
  let (v, s) := SWIG_NewPointerObj item cls s
  let s := OI_PY_STATE_PUT s
  (⟨v⟩, s)

/-- The function `swig_free_ref`. -/
def swig_free_ref (ref : swig_ref) (s : PyState) : PyState :=
  let s := OI_PY_STATE_GET s
  let s := Py_DECREF (Obj.val ref.val) s
  OI_PY_STATE_PUT s

/-- The function `deref_swig_cb_val`. -/
def deref_swig_cb_val (cb : Listener) (s : PyState) : Listener × PyState :=
  let s := OI_PY_STATE_GET s
  let s := Py_DECREF (Obj.cb cb.id) s
  let s := OI_PY_STATE_PUT s
  (cb, s)

/-- The macro `swig_free_ref_check(r, c)`. -/
def swig_free_ref_check (r : swig_ref) (s : PyState) : PyState := swig_free_ref r s

/-- The function `swig_finish_call_rv`.  When the method is missing, the class
name that the source reads through `__class__` and `__name__` is the
`className` of the listener. -/
def swig_finish_call_rv (cb : Listener) (method_name : String) (args : List PyVal)
    (s : PyState) : Option PyVal × PyState :=
  let (p, s) := PyObject_GetAttrString cb method_name s
  match p with
  | some p =>
    let (o, s) := PyObject_CallObject cb method_name p args s
    let s := Py_DECREF (Obj.attr cb.id method_name) s
    let s := if PyErr_Occurred s then wake_curr_waiter s else s
    let s := Py_DECREF_tuple args s
    (o, s)
  | none =>
    let s := PyErr_Format PyExc.RuntimeError
      ("gensio callback: Class '" ++ cb.className ++ "' has no method '"
        ++ method_name ++ "'\n") s
    let s := wake_curr_waiter s
    let s := Py_DECREF_tuple args s
    (none, s)

/-- The function `swig_finish_call`. -/
def swig_finish_call (cb : Listener) (method_name : String) (args : List PyVal)
    (s : PyState) : PyState :=
  let (o, s) := swig_finish_call_rv cb method_name args s
  match o with
  | some v => Py_DECREF (Obj.result v) s
  | none => s

/-- The native `struct gensio_data`, the user data of a stream or serial handle. -/
structure gensio_data where
  refcount : Int
  /-- The persistent listener; `none` is the null pointer, "not set". -/
  handler_val : Option Listener
  /-- The shared `struct gensio_os_funcs *`. -/
  o : Nat

/-- Modelled from the spec: the NativeHandle of a stream, `struct gensio *`,
declared outside the header; only what the bridge reads or sets is kept. -/
structure gensio where
  /-- The address of the native object. -/
  item : Nat
  /-- The record returned by `gensio_get_user_data`. -/
  user_data : gensio_data
  /-- The answer of `is_sergensio`. -/
  is_sergensio : Bool
  /-- Whether `gensio_child_event` is installed as the event callback. -/
  child_event_set : Bool
  /-- Whether the table `gen_scbs` is installed on the serial side. -/
  ser_cbs_set : Bool

/-- Modelled from the spec: the NativeHandle of a serial-control object,
`struct sergensio *`, declared outside the header. -/
structure sergensio where
  item : Nat
  /-- The record returned by `sergensio_get_user_data`. -/
  user_data : gensio_data

/-- The native `struct gensio_acc_data`, the user data of an acceptor. -/
structure gensio_acc_data where
  handler_val : Listener
  o : Nat

/-- Modelled from the spec: the NativeHandle of an acceptor,
`struct gensio_acceptor *`, declared outside the header. -/
structure gensio_acceptor where
  item : Nat
  /-- The record returned by `gensio_acc_get_user_data`. -/
  user_data : gensio_acc_data

/-- Modelled from the spec: the accessor gensio_get_user_data, which returns the
user-data pointer stored on the handle. -/
def gensio_get_user_data (io : gensio) : gensio_data := io.user_data

/-- Modelled from the spec: the accessor sergensio_get_user_data, which returns
the user-data pointer stored on the handle. -/
def sergensio_get_user_data (sio : sergensio) : gensio_data := sio.user_data

/-- Modelled from the spec: the accessor gensio_acc_get_user_data, which returns
the user-data pointer stored on the handle. -/
def gensio_acc_get_user_data (acc : gensio_acceptor) : gensio_acc_data := acc.user_data

/-- The event kinds told apart by the `switch` of `gensio_child_event`; the
numeric values of the `GENSIO_EVENT_*` macros are declared outside the header. -/
inductive gensio_event where
  | GENSIO_EVENT_READ
  | GENSIO_EVENT_WRITE_READY
  | GENSIO_EVENT_URGENT
  /-- Any value that is none of the three cases (the `default:` label). -/
  | other (code : Int)
  deriving DecidableEq, Repr

/-- What the C library supplies: the value of `ENOTSUP` and `strerror`. -/
structure Libc where
  ENOTSUP : Nat
  strerror : Int → String

/-- The function `gensio_open_done`. -/
def gensio_open_done (io : gensio) (err : Int) (cb_data : Listener) (s : PyState) : PyState :=
  let cb := cb_data
  let s := OI_PY_STATE_GET s
  let (io_ref, s) := swig_make_ref_i io.item swig_type_info.gensio s
  let args := PyTuple_New 2
  let s := Py_INCREF (Obj.val io_ref.val) s
  let args := PyTuple_SET_ITEM args 0 io_ref.val
  let o := PyInt_FromLong err
  let args := PyTuple_SET_ITEM args 1 o
  let s := swig_finish_call cb "open_done" args s
  let s := swig_free_ref_check io_ref s
  let (_, s) := deref_swig_cb_val cb s
  OI_PY_STATE_PUT s

/-- The function `gensio_close_done`. -/
def gensio_close_done (io : gensio) (cb_data : Listener) (s : PyState) : PyState :=
  let cb := cb_data
  let s := OI_PY_STATE_GET s
  let (io_ref, s) := swig_make_ref_i io.item swig_type_info.gensio s
  let args := PyTuple_New 1
  let s := Py_INCREF (Obj.val io_ref.val) s
  let args := PyTuple_SET_ITEM args 0 io_ref.val
  let s := swig_finish_call cb "close_done" args s
  let s := swig_free_ref_check io_ref s
  let (_, s) := deref_swig_cb_val cb s
  OI_PY_STATE_PUT s

/-- The function `gensio_child_event`.  The result is the returned status, the
value of `*buflen` on return, and the runtime state.  The local `io_ref` is
`none` as long as it has not been assigned: the `default:` case leaves it so,
and the `swig_free_ref_check(io_ref)` after the `switch` then acquires the guard
inside `swig_free_ref` and applies `Py_DECREF` to an indeterminate pointer,
which is undefined behaviour; the model stops there. -/
def gensio_child_event (c : Libc) (io : gensio) (event : gensio_event) (readerr : Int)
    (buf : List Nat) (buflen : Nat) (channel : Nat) (s : PyState) : Nat × Nat × PyState :=
  let data := gensio_get_user_data io
  let rv := c.ENOTSUP
  let s := OI_PY_STATE_GET s
  match data.handler_val with
  | none =>
    let s := PyErr_Format PyExc.RuntimeError
      "gensio callback: gensio handler was not set" s
    let s := wake_curr_waiter s
    let s := OI_PY_STATE_PUT s
    (rv, buflen, s)
  | some handler_val =>
    let (rv, buflen, io_ref, s) : Nat × Nat × Option swig_ref × PyState :=
      match event with
      | gensio_event.GENSIO_EVENT_READ =>
        let args := PyTuple_New 4
        let (io_ref, s) := swig_make_ref_i io.item swig_type_info.gensio s
        let s := Py_INCREF (Obj.val io_ref.val) s
        let args := PyTuple_SET_ITEM args 0 io_ref.val
        let (o, s) :=
          if readerr ≠ 0 then (PyVal.Str (c.strerror readerr), s)
          else (PyVal.None, Py_INCREF (Obj.val PyVal.None) s)
        let args := PyTuple_SET_ITEM args 1 o
        let o := PyVal.Bytes (buf.take buflen)
        let args := PyTuple_SET_ITEM args 2 o
        let o := PyInt_FromLong (ulong_to_long channel)
        let args := PyTuple_SET_ITEM args 3 o
        let (o, s) := swig_finish_call_rv handler_val "read_callback" args s
        let (buflen, s) :=
          match o with
          | some o =>
            let (n, s) := PyLong_AsUnsignedLong o s
            let buflen := ulong_to_uint n
            let s :=
              if PyErr_Occurred s then
                let s := PyErr_Format PyExc.RuntimeError
                  ("gensio callback: Class '" ++ handler_val.className
                    ++ "' method 'read_callback' did not return an integer\n") s
                wake_curr_waiter s
              else s
            (buflen, Py_DECREF (Obj.result o) s)
          | none => (buflen, s)
        (0, buflen, some io_ref, s)
      | gensio_event.GENSIO_EVENT_WRITE_READY =>
        let (io_ref, s) := swig_make_ref_i io.item swig_type_info.gensio s
        let args := PyTuple_New 1
        let s := Py_INCREF (Obj.val io_ref.val) s
        let args := PyTuple_SET_ITEM args 0 io_ref.val
        let s := swig_finish_call handler_val "write_callback" args s
        (0, buflen, some io_ref, s)
      | gensio_event.GENSIO_EVENT_URGENT =>
        let (io_ref, s) := swig_make_ref_i io.item swig_type_info.gensio s
        let args := PyTuple_New 1
        let s := Py_INCREF (Obj.val io_ref.val) s
        let args := PyTuple_SET_ITEM args 0 io_ref.val
        let s := swig_finish_call handler_val "urgent_callback" args s
        (0, buflen, some io_ref, s)
      | gensio_event.other _ => (rv, buflen, none, s)
    match io_ref with
    | some io_ref =>
      let s := swig_free_ref_check io_ref s
      let s := OI_PY_STATE_PUT s
      (rv, buflen, s)
    | none =>
      let s := OI_PY_STATE_GET s
      (rv, buflen, { s with undefined := true })

/-- The function `sgensio_call`. -/
def sgensio_call (sio : sergensio) (val : Int) (func : String) (s : PyState) : PyState :=
  let data := sergensio_get_user_data sio
  let s := OI_PY_STATE_GET s
  match data.handler_val with
  | none =>
    let s := PyErr_Format PyExc.RuntimeError
      "sergensio callback: gensio handler was not set" s
    let s := wake_curr_waiter s
    OI_PY_STATE_PUT s
  | some handler_val =>
    let (sio_ref, s) := swig_make_ref_i sio.item swig_type_info.sergensio s
    let args := PyTuple_New 2
    let s := Py_INCREF (Obj.val sio_ref.val) s
    let args := PyTuple_SET_ITEM args 0 sio_ref.val
    let o := PyInt_FromLong val
    let args := PyTuple_SET_ITEM args 1 o
    let s := swig_finish_call handler_val func args s
    let s := swig_free_ref_check sio_ref s
    OI_PY_STATE_PUT s

/-- The function `sgensio_modemstate`. -/
def sgensio_modemstate (sio : sergensio) (modemstate : Int) (s : PyState) : PyState :=
  sgensio_call sio modemstate "modemstate" s

/-- The function `sgensio_linestate`. -/
def sgensio_linestate (sio : sergensio) (linestate : Int) (s : PyState) : PyState :=
  sgensio_call sio linestate "linestate" s

/-- The function `sgensio_flowcontrol_state`. -/
def sgensio_flowcontrol_state (sio : sergensio) (val : Bool) (s : PyState) : PyState :=
  let data := sergensio_get_user_data sio
  let s := OI_PY_STATE_GET s
  match data.handler_val with
  | none =>
    let s := PyErr_Format PyExc.RuntimeError
      "sergensio callback: gensio handler was not set" s
    let s := wake_curr_waiter s
    OI_PY_STATE_PUT s
  | some handler_val =>
    let (sio_ref, s) := swig_make_ref_i sio.item swig_type_info.sergensio s
    let args := PyTuple_New 2
    let s := Py_INCREF (Obj.val sio_ref.val) s
    let args := PyTuple_SET_ITEM args 0 sio_ref.val
    let o := PyBool_FromLong val
    let args := PyTuple_SET_ITEM args 1 o
    let s := swig_finish_call handler_val "flowcontrol_state" args s
    let s := swig_free_ref_check sio_ref s
    OI_PY_STATE_PUT s

/-- The function `sgensio_flush`. -/
def sgensio_flush (sio : sergensio) (val : Int) (s : PyState) : PyState :=
  sgensio_call sio val "sflush" s

/-- The function `sgensio_baud`. -/
def sgensio_baud (sio : sergensio) (baud : Int) (s : PyState) : PyState :=
  sgensio_call sio baud "sbaud" s

/-- The function `sgensio_datasize`. -/
def sgensio_datasize (sio : sergensio) (datasize : Int) (s : PyState) : PyState :=
  sgensio_call sio datasize "sdatasize" s

/-- The function `sgensio_parity`. -/
def sgensio_parity (sio : sergensio) (parity : Int) (s : PyState) : PyState :=
  sgensio_call sio parity "sparity" s

/-- The function `sgensio_stopbits`. -/
def sgensio_stopbits (sio : sergensio) (stopbits : Int) (s : PyState) : PyState :=
  sgensio_call sio stopbits "sstopbits" s

/-- The function `sgensio_flowcontrol`. -/
def sgensio_flowcontrol (sio : sergensio) (flowcontrol : Int) (s : PyState) : PyState :=
  sgensio_call sio flowcontrol "sflowcontrol" s

/-- The function `sgensio_iflowcontrol`. -/
def sgensio_iflowcontrol (sio : sergensio) (iflowcontrol : Int) (s : PyState) : PyState :=
  sgensio_call sio iflowcontrol "siflowcontrol" s

/-- The function `sgensio_sbreak`. -/
def sgensio_sbreak (sio : sergensio) (breakv : Int) (s : PyState) : PyState :=
  sgensio_call sio breakv "ssbreak" s

/-- The function `sgensio_dtr`. -/
def sgensio_dtr (sio : sergensio) (dtr : Int) (s : PyState) : PyState :=
  sgensio_call sio dtr "sdtr" s

/-- The function `sgensio_rts`. -/
def sgensio_rts (sio : sergensio) (rts : Int) (s : PyState) : PyState :=
  sgensio_call sio rts "srts" s

/-- The native `struct sergensio_callbacks`, with the fields the header fills in. -/
structure sergensio_callbacks where
  modemstate : sergensio → Int → PyState → PyState
  linestate : sergensio → Int → PyState → PyState
  flowcontrol_state : sergensio → Bool → PyState → PyState
  flush : sergensio → Int → PyState → PyState
  baud : sergensio → Int → PyState → PyState
  datasize : sergensio → Int → PyState → PyState
  parity : sergensio → Int → PyState → PyState
  stopbits : sergensio → Int → PyState → PyState
  flowcontrol : sergensio → Int → PyState → PyState
  iflowcontrol : sergensio → Int → PyState → PyState
  sbreak : sergensio → Int → PyState → PyState
  dtr : sergensio → Int → PyState → PyState
  rts : sergensio → Int → PyState → PyState

/-- The table `gen_scbs`. -/
def gen_scbs : sergensio_callbacks where
  modemstate := sgensio_modemstate
  linestate := sgensio_linestate
  flowcontrol_state := sgensio_flowcontrol_state
  flush := sgensio_flush
  baud := sgensio_baud
  datasize := sgensio_datasize
  parity := sgensio_parity
  stopbits := sgensio_stopbits
  flowcontrol := sgensio_flowcontrol
  iflowcontrol := sgensio_iflowcontrol
  sbreak := sgensio_sbreak
  dtr := sgensio_dtr
  rts := sgensio_rts

/-- The function `gensio_acc_shutdown_done`. -/
def gensio_acc_shutdown_done (acceptor : gensio_acceptor) (cb_data : Listener)
    (s : PyState) : PyState :=
  let cb := cb_data
  let s := OI_PY_STATE_GET s
  let (acc_ref, s) := swig_make_ref_i acceptor.item swig_type_info.gensio_acceptor s
  let args := PyTuple_New 1
  let s := Py_INCREF (Obj.val acc_ref.val) s
  let args := PyTuple_SET_ITEM args 0 acc_ref.val
  let s := swig_finish_call cb "shutdown_done" args s
  let s := swig_free_ref_check acc_ref s
  let (_, s) := deref_swig_cb_val cb s
  OI_PY_STATE_PUT s

/-- The function `gensio_acc_got_new`.  The flag `malloc_ok` says whether the
`malloc` of the user data succeeds; the result is the new handle as the
function leaves it, and the runtime state.  The calls `gensio_set_callback` and
`sergensio_set_ser_cbs` are the updates of the handle's fields. -/
def gensio_acc_got_new (acceptor : gensio_acceptor) (io : gensio) (malloc_ok : Bool)
    (s : PyState) : gensio × PyState :=
  let data := gensio_acc_get_user_data acceptor
  if !malloc_ok then (io, s)
  else
    let iodata : gensio_data := { refcount := 1, handler_val := none, o := data.o }
    let io := { io with user_data := iodata, child_event_set := true }
    let io := if io.is_sergensio then { io with ser_cbs_set := true } else io
    let s := OI_PY_STATE_GET s
    let (acc_ref, s) := swig_make_ref_i acceptor.item swig_type_info.gensio_acceptor s
    let (io_ref, s) := swig_make_ref_i io.item swig_type_info.gensio s
    let args := PyTuple_New 2
    let s := Py_INCREF (Obj.val acc_ref.val) s
    let s := Py_INCREF (Obj.val io_ref.val) s
    let args := PyTuple_SET_ITEM args 0 acc_ref.val
    let args := PyTuple_SET_ITEM args 1 io_ref.val
    let s := swig_finish_call data.handler_val "new_connection" args s
    let s := swig_free_ref_check acc_ref s
    let s := swig_free_ref_check io_ref s
    let s := OI_PY_STATE_PUT s
    (io, s)

/-- The native `struct sergensio_cbdata`, a one-shot callback request. -/
structure sergensio_cbdata where
  cbname : String
  h_val : Listener

/-- The macro `sergensio_cbdata(name, h)`; `malloc_ok` says whether its
`malloc` succeeds. -/
def sergensio_cbdata.make (name : String) (h : Listener) (malloc_ok : Bool)
    (s : PyState) : Option sergensio_cbdata × PyState :=
  if malloc_ok then
    let (h_val, s) := ref_swig_cb_i h s
    (some { cbname := name, h_val := h_val }, s)
  else (none, s)

/-- The function `cleanup_sergensio_cbdata`. -/
def cleanup_sergensio_cbdata (cbd : sergensio_cbdata) (s : PyState) : PyState :=
  (deref_swig_cb_val cbd.h_val s).2

/-- The function `sergensio_cb`. -/
def sergensio_cb (c : Libc) (sio : sergensio) (err : Int) (val : Int)
    (cb_data : sergensio_cbdata) (s : PyState) : PyState :=
  let cbd := cb_data
  let s := OI_PY_STATE_GET s
  let (sio_ref, s) := swig_make_ref_i sio.item swig_type_info.gensio s
  let args := PyTuple_New 3
  let s := Py_INCREF (Obj.val sio_ref.val) s
  let args := PyTuple_SET_ITEM args 0 sio_ref.val
  let (o, s) :=
    if err ≠ 0 then (PyVal.Str (c.strerror err), s)
    else (PyVal.None, Py_INCREF (Obj.val PyVal.None) s)
  let args := PyTuple_SET_ITEM args 1 o
  let o := PyInt_FromLong val
  let args := PyTuple_SET_ITEM args 2 o
  let s := swig_finish_call cbd.h_val cbd.cbname args s
  let s := cleanup_sergensio_cbdata cbd s
  OI_PY_STATE_PUT s

/-! ## Observations on a trace -/

/-- The operations performed between the state `s0` and the later state `s1`. -/
def emitted (s0 s1 : PyState) : List Event := s1.trace.drop s0.trace.length

/-- Number of guard acquisitions. -/
def acquires (evs : List Event) : Nat :=
  evs.countP (fun e => match e with | Event.acquire => true | _ => false)

/-- Number of guard releases. -/
def releases (evs : List Event) : Nat :=
  evs.countP (fun e => match e with | Event.release => true | _ => false)

/-- Number of waiter wake-ups. -/
def wakes (evs : List Event) : Nat :=
  evs.countP (fun e => match e with | Event.wake => true | _ => false)

/-- The errors raised by the bridge, in order. -/
def raised (evs : List Event) : List PyErr :=
  evs.filterMap (fun e => match e with | Event.raise x => some x | _ => none)

/-- The method lookups (invocation attempts), in order: handle and name. -/
def lookups (evs : List Event) : List (Nat × String) :=
  evs.filterMap (fun e => match e with | Event.getattr h n => some (h, n) | _ => none)

/-- The listener methods invoked, in order: handle, name, arguments. -/
def calls (evs : List Event) : List (Nat × String × List PyVal) :=
  evs.filterMap (fun e => match e with | Event.call h n a => some (h, n, a) | _ => none)

/-- The argument tuples released, in order. -/
def tupleReleases (evs : List Event) : List (List PyVal) :=
  evs.filterMap (fun e => match e with | Event.decref (Obj.tuple a) => some a | _ => none)

/-- The proxies minted, in order: number, native item, type descriptor. -/
def minted (evs : List Event) : List (Nat × Nat × swig_type_info) :=
  evs.filterMap (fun e => match e with | Event.newPointerObj i a t => some (i, a, t) | _ => none)

/-- The change one operation makes to the reference count of the proxy `id`. -/
def proxyDelta (id : Nat) : Event → Int
  | Event.newPointerObj i _ _ => if i = id then 1 else 0
  | Event.incref (Obj.val (PyVal.Ptr i _ _)) => if i = id then 1 else 0
  | Event.decref (Obj.val (PyVal.Ptr i _ _)) => if i = id then -1 else 0
  | _ => 0

/-- The net change of the reference count of the proxy `id` over a trace. -/
def proxyNet (id : Nat) (evs : List Event) : Int := (evs.map (proxyDelta id)).sum

/-- The change one operation makes to the reference count of the callback handle `id`. -/
def cbDelta (id : Nat) : Event → Int
  | Event.incref (Obj.cb i) => if i = id then 1 else 0
  | Event.decref (Obj.cb i) => if i = id then -1 else 0
  | _ => 0

/-- The net change of the reference count of the callback handle `id` over a trace. -/
def cbNet (id : Nat) (evs : List Event) : Int := (evs.map (cbDelta id)).sum

/-- Whether an operation needs the guard: a listener lookup or invocation, or
any reference-count change. -/
def needsGuard : Event → Bool
  | Event.newPointerObj _ _ _ => true
  | Event.incref _ => true
  | Event.decref _ => true
  | Event.getattr _ _ => true
  | Event.call _ _ _ => true
  | _ => false

/-- Whether every operation of the trace that needs the guard happens while it
is held, and no release happens without a matching acquisition; `depth` is the
number of acquisitions outstanding at the start. -/
def guardedFrom : Nat → List Event → Bool
  | _, [] => true
  | depth, Event.acquire :: evs => guardedFrom (depth + 1) evs
  | 0, Event.release :: _ => false
  | depth + 1, Event.release :: evs => guardedFrom depth evs
  | depth, e :: evs => (!needsGuard e || decide (0 < depth)) && guardedFrom depth evs

/-! ## Sample inputs -/

/-- A listener of class `Handler` that has every method; each returns the integer 1. -/
def sampleListener : Listener :=
  { id := 7, className := "Handler",
    methods := fun _ => some (fun _ => MethodOutcome.returns (PyVal.Int 1)) }

/-- A listener of class `Handler` whose every method raises. -/
def raisingListener : Listener :=
  { id := 8, className := "Handler",
    methods := fun _ => some (fun _ => MethodOutcome.raises ⟨PyExc.Exception, "boom"⟩) }

/-- A listener of class `Handler` whose every method returns `None`. -/
def noneListener : Listener :=
  { id := 9, className := "Handler",
    methods := fun _ => some (fun _ => MethodOutcome.returns PyVal.None) }

/-- A listener of class `Empty` without any method. -/
def emptyListener : Listener :=
  { id := 10, className := "Empty", methods := fun _ => none }

/-- A C library with the Linux value of `ENOTSUP`. -/
def sampleLibc : Libc := { ENOTSUP := 95, strerror := fun _ => "error" }

/-- A stream handle with the given listener. -/
def sampleGensio (h : Option Listener) : gensio :=
  { item := 100, user_data := { refcount := 1, handler_val := h, o := 0 },
    is_sergensio := false, child_event_set := true, ser_cbs_set := false }

/-- A serial-control handle with the given listener. -/
def sampleSergensio (h : Option Listener) : sergensio :=
  { item := 200, user_data := { refcount := 1, handler_val := h, o := 0 } }

/-- An acceptor handle with the given listener. -/
def sampleAcceptor (h : Listener) : gensio_acceptor :=
  { item := 300, user_data := { handler_val := h, o := 0 } }

/-- A runtime state with no operation recorded and no error pending. -/
def cleanState : PyState := { trace := [], pending := none, nextId := 0 }

theorem foldl_decref_items (l : List PyVal) (s : PyState) :
    l.foldl (fun st v => Py_DECREF (Obj.val v) st) s
      = { s with trace := s.trace ++ l.map (fun v => Event.decref (Obj.val v)) } := by
  induction l generalizing s with
  | nil => simp
  | cons v l ih =>
    rw [List.foldl_cons, ih]
    simp [Py_DECREF, emit]

theorem Py_DECREF_tuple_eq (args : List PyVal) (s : PyState) :
    Py_DECREF_tuple args s
      = { s with trace := s.trace ++
            Event.decref (Obj.tuple args) :: args.map (fun v => Event.decref (Obj.val v)) } := by
  unfold Py_DECREF_tuple
  rw [foldl_decref_items]
  simp [Py_DECREF, emit]

@[simp] theorem wakes_items (l : List PyVal) :
    wakes (l.map (fun v => Event.decref (Obj.val v))) = 0 := by
  induction l with
  | nil => rfl
  | cons v l ih => simp [wakes]

@[simp] theorem raised_items (l : List PyVal) :
    raised (l.map (fun v => Event.decref (Obj.val v))) = [] := by
  induction l with
  | nil => rfl
  | cons v l ih => simp [raised]

@[simp] theorem calls_items (l : List PyVal) :
    calls (l.map (fun v => Event.decref (Obj.val v))) = [] := by
  induction l with
  | nil => rfl
  | cons v l ih => simp [calls]

@[simp] theorem tupleReleases_items (l : List PyVal) :
    tupleReleases (l.map (fun v => Event.decref (Obj.val v))) = [] := by
  induction l with
  | nil => rfl
  | cons v l ih => simp [tupleReleases]

/-! ## No handler set -/

/-- C1: whatever the event kind, when the user data of the handle has no handler
(`handler_val` is null), `gensio_child_event` returns `ENOTSUP`, raises exactly
one error, the `RuntimeError` "gensio callback: gensio handler was not set",
wakes the waiter exactly once, looks up and invokes no listener method, and
leaves `*buflen` as it was. -/
theorem gensio_child_event_no_handler (c : Libc) (io : gensio) (event : gensio_event)
    (readerr : Int) (buf : List Nat) (buflen channel : Nat) (s : PyState)
    (h : io.user_data.handler_val = none) :
    let r := gensio_child_event c io event readerr buf buflen channel s
    let evs := emitted s r.2.2
    r.1 = c.ENOTSUP ∧
    raised evs = [⟨PyExc.RuntimeError, "gensio callback: gensio handler was not set"⟩] ∧
    r.2.2.pending = some ⟨PyExc.RuntimeError, "gensio callback: gensio handler was not set"⟩ ∧
    wakes evs = 1 ∧
    lookups evs = [] ∧
    calls evs = [] ∧
    r.2.1 = buflen := by
  simp [gensio_child_event, gensio_get_user_data, h, emitted, emit, OI_PY_STATE_GET,
    OI_PY_STATE_PUT, PyErr_Format, wake_curr_waiter, raised, wakes, lookups, calls]

/-- Witness of C1: an unknown event kind on a handle without handler. -/
theorem gensio_child_event_no_handler_witness :
    (sampleGensio none).user_data.handler_val = none ∧
    (gensio_child_event sampleLibc (sampleGensio none) (gensio_event.other 42) 0
      [1, 2, 3] 3 0 cleanState).1 = 95 ∧
    wakes (emitted cleanState (gensio_child_event sampleLibc (sampleGensio none)
      (gensio_event.other 42) 0 [1, 2, 3] 3 0 cleanState).2.2) = 1 :=
  ⟨rfl,
   (gensio_child_event_no_handler sampleLibc (sampleGensio none) (gensio_event.other 42) 0
      [1, 2, 3] 3 0 cleanState rfl).1,
   (gensio_child_event_no_handler sampleLibc (sampleGensio none) (gensio_event.other 42) 0
      [1, 2, 3] 3 0 cleanState rfl).2.2.2.1⟩

/-! ## The call invoker -/

/-- C4: with no error pending on entry, `swig_finish_call_rv` looks the method up
once, releases the argument tuple exactly once, and ends in exactly one of three
ways, decided by the listener.  (1) The method is missing: nothing is invoked,
no result is returned, the `RuntimeError`
"gensio callback: Class '<class>' has no method '<name>'" (the format string
ends with a newline) is raised and pending, and the waiter is woken once.
(2) The method raises: it was invoked once, no result is returned, the bridge
raises nothing itself, the waiter is woken once and the raised error is still
pending.  (3) The method returns: it was invoked once, its result is returned,
no waiter is woken and no error is pending. -/
theorem swig_finish_call_rv_three_outcomes (cb : Listener) (method_name : String)
    (args : List PyVal) (s : PyState) (hclean : s.pending = none) :
    let r := swig_finish_call_rv cb method_name args s
    let evs := emitted s r.2
    lookups evs = [(cb.id, method_name)] ∧
    tupleReleases evs = [args] ∧
    ((cb.methods method_name = none ∧
        calls evs = [] ∧ r.1 = none ∧
        raised evs = [⟨PyExc.RuntimeError, "gensio callback: Class '" ++ cb.className
          ++ "' has no method '" ++ method_name ++ "'\n"⟩] ∧
        r.2.pending = some ⟨PyExc.RuntimeError, "gensio callback: Class '" ++ cb.className
          ++ "' has no method '" ++ method_name ++ "'\n"⟩ ∧
        wakes evs = 1) ∨
     (∃ p e, cb.methods method_name = some p ∧ p args = MethodOutcome.raises e ∧
        calls evs = [(cb.id, method_name, args)] ∧ r.1 = none ∧
        raised evs = [] ∧ r.2.pending = some e ∧ wakes evs = 1) ∨
     (∃ p v, cb.methods method_name = some p ∧ p args = MethodOutcome.returns v ∧
        calls evs = [(cb.id, method_name, args)] ∧ r.1 = some v ∧
        raised evs = [] ∧ r.2.pending = none ∧ wakes evs = 0)) := by
  cases hm : cb.methods method_name with
  | none =>
    simp [swig_finish_call_rv, PyObject_GetAttrString, hm, Py_DECREF_tuple_eq, emitted, emit,
      PyErr_Format, wake_curr_waiter, tupleReleases, lookups, calls, raised, wakes]
  | some p =>
    cases hp : p args with
    | raises e =>
      simp [swig_finish_call_rv, PyObject_GetAttrString, PyObject_CallObject, hm, hp,
        Py_DECREF_tuple_eq, emitted, emit, wake_curr_waiter, tupleReleases, lookups, calls,
        raised, wakes, PyErr_Occurred, Py_DECREF]
    | returns v =>
      simp [swig_finish_call_rv, PyObject_GetAttrString, PyObject_CallObject, hm, hp,
        Py_DECREF_tuple_eq, emitted, emit, wake_curr_waiter, tupleReleases, lookups, calls,
        raised, wakes, PyErr_Occurred, Py_DECREF, hclean]

/-- Witness of C4: a method that returns, called from a state without pending error. -/
theorem swig_finish_call_rv_three_outcomes_witness :
    cleanState.pending = none ∧
    tupleReleases (emitted cleanState
      (swig_finish_call_rv sampleListener "open_done" [PyVal.Int 0] cleanState).2)
      = [[PyVal.Int 0]] :=
  ⟨rfl,
   (swig_finish_call_rv_three_outcomes sampleListener "open_done" [PyVal.Int 0]
      cleanState rfl).2.1⟩

/-! ## The data-ready event -/

theorem PyLong_AsUnsignedLong_of_fails (o : PyVal) (h : PyLong_AsUnsignedLong_fails o = true) :
    ∃ e, ∀ s : PyState,
      PyLong_AsUnsignedLong o s = (ULONG_MAX, { s with pending := some e }) := by
  cases o with
  | Int n =>
    by_cases h1 : n < 0
    · exact ⟨⟨PyExc.OverflowError, "can't convert negative value to unsigned long"⟩,
        fun s => by simp [PyLong_AsUnsignedLong, h1]⟩
    · by_cases h2 : ((ULONG_MAX : Nat) : Int) < n
      · exact ⟨⟨PyExc.OverflowError, "long int too large to convert"⟩,
          fun s => by simp [PyLong_AsUnsignedLong, h1, h2]⟩
      · simp [PyLong_AsUnsignedLong_fails, PyLong_AsUnsignedLong, h1, h2] at h
  | Bool b => simp [PyLong_AsUnsignedLong_fails, PyLong_AsUnsignedLong] at h
  | None => exact ⟨⟨PyExc.SystemError, "bad argument to internal function"⟩, fun _ => rfl⟩
  | Str t => exact ⟨⟨PyExc.SystemError, "bad argument to internal function"⟩, fun _ => rfl⟩
  | Bytes d => exact ⟨⟨PyExc.SystemError, "bad argument to internal function"⟩, fun _ => rfl⟩
  | Ptr i a b => exact ⟨⟨PyExc.SystemError, "bad argument to internal function"⟩, fun _ => rfl⟩
  | Other g => exact ⟨⟨PyExc.SystemError, "bad argument to internal function"⟩, fun _ => rfl⟩
  | NULL => exact ⟨⟨PyExc.SystemError, "bad argument to internal function"⟩, fun _ => rfl⟩

/-- C10: on a data-ready event with a handler set, when `read_callback` is
missing or raises (so that the invoker returns no result), `*buflen` keeps the
value `N` it had on entry, and the returned status is 0. -/
theorem gensio_child_event_read_no_result (c : Libc) (io : gensio) (readerr : Int)
    (buf : List Nat) (buflen channel : Nat) (s : PyState) (handler : Listener)
    (hh : io.user_data.handler_val = some handler)
    (hm : handler.methods "read_callback" = none ∨
      ∃ p e, handler.methods "read_callback" = some p ∧
        p [PyVal.Ptr s.nextId io.item swig_type_info.gensio,
           if readerr ≠ 0 then PyVal.Str (c.strerror readerr) else PyVal.None,
           PyVal.Bytes (buf.take buflen),
           PyVal.Int (ulong_to_long channel)] = MethodOutcome.raises e) :
    let r := gensio_child_event c io gensio_event.GENSIO_EVENT_READ readerr buf buflen channel s
    r.2.1 = buflen ∧ r.1 = 0 := by
  rcases hm with hm | ⟨p, e, hm, hp⟩
  · by_cases hr : readerr = 0 <;>
    simp [gensio_child_event, gensio_get_user_data, hh, hm, hr, swig_finish_call_rv,
      PyObject_GetAttrString, swig_make_ref_i, SWIG_NewPointerObj, OI_PY_STATE_GET,
      OI_PY_STATE_PUT, emit, PyTuple_New, PyTuple_SET_ITEM, Py_INCREF, PyInt_FromLong,
      PyErr_Format, wake_curr_waiter, Py_DECREF_tuple, Py_DECREF, swig_free_ref_check,
      swig_free_ref]
  · by_cases hr : readerr = 0 <;>
    simp [hr] at hp <;>
    simp [gensio_child_event, gensio_get_user_data, hh, hm, hp, hr, swig_finish_call_rv,
      PyObject_GetAttrString, PyObject_CallObject, swig_make_ref_i, SWIG_NewPointerObj,
      OI_PY_STATE_GET, OI_PY_STATE_PUT, emit, PyTuple_New, PyTuple_SET_ITEM, Py_INCREF,
      PyInt_FromLong, PyErr_Format, wake_curr_waiter, Py_DECREF_tuple, Py_DECREF,
      swig_free_ref_check, swig_free_ref, PyErr_Occurred]

/-- Witness of C10: a listener whose `read_callback` raises, three bytes available. -/
theorem gensio_child_event_read_no_result_witness :
    (sampleGensio (some raisingListener)).user_data.handler_val = some raisingListener ∧
    (gensio_child_event sampleLibc (sampleGensio (some raisingListener))
      gensio_event.GENSIO_EVENT_READ 0 [1, 2, 3] 3 0 cleanState).2.1 = 3 ∧
    (gensio_child_event sampleLibc (sampleGensio (some raisingListener))
      gensio_event.GENSIO_EVENT_READ 0 [1, 2, 3] 3 0 cleanState).1 = 0 :=
  ⟨rfl,
   gensio_child_event_read_no_result sampleLibc (sampleGensio (some raisingListener)) 0
     [1, 2, 3] 3 0 cleanState raisingListener rfl
     (Or.inr ⟨fun _ => MethodOutcome.raises ⟨PyExc.Exception, "boom"⟩,
       ⟨PyExc.Exception, "boom"⟩, rfl, rfl⟩)⟩

/-- C6: on a data-ready event whose `read_callback` returns a value that
`PyLong_AsUnsignedLong` cannot convert (for example `None`, a string or a
negative integer), the method was invoked once, the bridge raises exactly one
error, the `RuntimeError` saying that the method 'read_callback' of the class
did not return an integer, which stays pending, and wakes the waiter; the
operation is not aborted: the status is 0 and `*buflen` is overwritten with the
conversion's error value `(unsigned long) -1` truncated to `unsigned int`, that
is 4294967295, whatever `N` was, and not 0. -/
theorem gensio_child_event_read_not_integer (c : Libc) (io : gensio) (readerr : Int)
    (buf : List Nat) (buflen channel : Nat) (s : PyState) (handler : Listener)
    (p : List PyVal → MethodOutcome) (v : PyVal)
    (hh : io.user_data.handler_val = some handler)
    (hm : handler.methods "read_callback" = some p)
    (hp : p [PyVal.Ptr s.nextId io.item swig_type_info.gensio,
             if readerr ≠ 0 then PyVal.Str (c.strerror readerr) else PyVal.None,
             PyVal.Bytes (buf.take buflen),
             PyVal.Int (ulong_to_long channel)] = MethodOutcome.returns v)
    (hv : PyLong_AsUnsignedLong_fails v = true) :
    let r := gensio_child_event c io gensio_event.GENSIO_EVENT_READ readerr buf buflen channel s
    let evs := emitted s r.2.2
    (PyLong_AsUnsignedLong_fails PyVal.None = true ∧
      (∀ t, PyLong_AsUnsignedLong_fails (PyVal.Str t) = true) ∧
      (∀ n : Int, n < 0 → PyLong_AsUnsignedLong_fails (PyVal.Int n) = true)) ∧
    calls evs = [(handler.id, "read_callback",
      [PyVal.Ptr s.nextId io.item swig_type_info.gensio,
       if readerr ≠ 0 then PyVal.Str (c.strerror readerr) else PyVal.None,
       PyVal.Bytes (buf.take buflen),
       PyVal.Int (ulong_to_long channel)])] ∧
    raised evs = [⟨PyExc.RuntimeError, "gensio callback: Class '" ++ handler.className
      ++ "' method 'read_callback' did not return an integer\n"⟩] ∧
    r.2.2.pending = some ⟨PyExc.RuntimeError, "gensio callback: Class '"
      ++ handler.className ++ "' method 'read_callback' did not return an integer\n"⟩ ∧
    1 ≤ wakes evs ∧
    r.1 = 0 ∧
    r.2.1 = ulong_to_uint ULONG_MAX ∧ r.2.1 = 4294967295 ∧ r.2.1 ≠ 0 := by
  have hex : PyLong_AsUnsignedLong_fails PyVal.None = true ∧
      (∀ t, PyLong_AsUnsignedLong_fails (PyVal.Str t) = true) ∧
      (∀ n : Int, n < 0 → PyLong_AsUnsignedLong_fails (PyVal.Int n) = true) := by
    refine ⟨rfl, fun _ => rfl, fun n hn => ?_⟩
    simp [PyLong_AsUnsignedLong_fails, PyLong_AsUnsignedLong, hn]
  obtain ⟨e, he⟩ := PyLong_AsUnsignedLong_of_fails v hv
  have hmax : ulong_to_uint ULONG_MAX = 4294967295 := by decide
  dsimp only
  refine ⟨hex, ?_⟩
  by_cases hr : readerr = 0 <;>
  simp [hr] at hp <;>
  cases hpd : s.pending <;>
  simp [gensio_child_event, gensio_get_user_data, hh, hm, hp, hr, hpd, he, hmax,
    swig_finish_call_rv, PyObject_GetAttrString, PyObject_CallObject, swig_make_ref_i,
    SWIG_NewPointerObj, OI_PY_STATE_GET, OI_PY_STATE_PUT, emit, PyTuple_New,
    PyTuple_SET_ITEM, Py_INCREF, PyInt_FromLong, PyErr_Format, wake_curr_waiter,
    Py_DECREF_tuple, Py_DECREF, swig_free_ref_check, swig_free_ref, PyErr_Occurred,
    emitted, raised, wakes, calls]

/-- Witness of C6: `read_callback` returns `None`, three bytes available. -/
theorem gensio_child_event_read_not_integer_witness :
    PyLong_AsUnsignedLong_fails PyVal.None = true ∧
    (gensio_child_event sampleLibc (sampleGensio (some noneListener))
      gensio_event.GENSIO_EVENT_READ 0 [1, 2, 3] 3 0 cleanState).1 = 0 ∧
    (gensio_child_event sampleLibc (sampleGensio (some noneListener))
      gensio_event.GENSIO_EVENT_READ 0 [1, 2, 3] 3 0 cleanState).2.1 = 4294967295 :=
  ⟨rfl,
   (gensio_child_event_read_not_integer sampleLibc (sampleGensio (some noneListener)) 0
     [1, 2, 3] 3 0 cleanState noneListener (fun _ => MethodOutcome.returns PyVal.None)
     PyVal.None rfl rfl rfl rfl).2.2.2.2.2.1,
   (gensio_child_event_read_not_integer sampleLibc (sampleGensio (some noneListener)) 0
     [1, 2, 3] 3 0 cleanState noneListener (fun _ => MethodOutcome.returns PyVal.None)
     PyVal.None rfl rfl rfl rfl).2.2.2.2.2.2.2.1⟩

/-! ## A listener that lacks the method -/

/-- C5 as stated fails: a writable event on a handle whose listener has no
`write_callback` raises the error and wakes the waiter, but the status
returned is 0, not `ENOTSUP` (95 here). -/
theorem gensio_child_event_missing_method_counterexample :
    (sampleGensio (some emptyListener)).user_data.handler_val = some emptyListener ∧
    emptyListener.methods "write_callback" = none ∧
    (gensio_child_event sampleLibc (sampleGensio (some emptyListener))
      gensio_event.GENSIO_EVENT_WRITE_READY 0 [] 0 0 cleanState).1 = 0 ∧
    (gensio_child_event sampleLibc (sampleGensio (some emptyListener))
      gensio_event.GENSIO_EVENT_WRITE_READY 0 [] 0 0 cleanState).1 ≠ sampleLibc.ENOTSUP := by
  refine ⟨rfl, rfl, ?_, ?_⟩ <;>
  simp [gensio_child_event, gensio_get_user_data, sampleGensio, emptyListener, sampleLibc,
    cleanState, swig_finish_call, swig_finish_call_rv, PyObject_GetAttrString,
    swig_make_ref_i, SWIG_NewPointerObj, OI_PY_STATE_GET, OI_PY_STATE_PUT, emit]

/-- C5, amended: for a data-ready, writable or urgent event on a handle whose
listener is set but has no `read_callback`, `write_callback` or
`urgent_callback` respectively, the method is looked up once and nothing is
invoked, exactly one error is raised, the `RuntimeError` "gensio callback: Class
'<class>' has no method '<name>'", the waiter is woken once, and the status
returned is 0. -/
theorem gensio_child_event_missing_method (c : Libc) (io : gensio) (event : gensio_event)
    (readerr : Int) (buf : List Nat) (buflen channel : Nat) (s : PyState)
    (handler : Listener) (name : String)
    (hh : io.user_data.handler_val = some handler)
    (hev : (event = gensio_event.GENSIO_EVENT_READ ∧ name = "read_callback") ∨
           (event = gensio_event.GENSIO_EVENT_WRITE_READY ∧ name = "write_callback") ∨
           (event = gensio_event.GENSIO_EVENT_URGENT ∧ name = "urgent_callback"))
    (hm : handler.methods name = none) :
    let r := gensio_child_event c io event readerr buf buflen channel s
    let evs := emitted s r.2.2
    lookups evs = [(handler.id, name)] ∧
    calls evs = [] ∧
    raised evs = [⟨PyExc.RuntimeError, "gensio callback: Class '" ++ handler.className
      ++ "' has no method '" ++ name ++ "'\n"⟩] ∧
    r.2.2.pending = some ⟨PyExc.RuntimeError, "gensio callback: Class '"
      ++ handler.className ++ "' has no method '" ++ name ++ "'\n"⟩ ∧
    wakes evs = 1 ∧
    r.1 = 0 := by
  rcases hev with ⟨he, hn⟩ | ⟨he, hn⟩ | ⟨he, hn⟩
  · subst he hn
    by_cases hr : readerr = 0 <;>
    simp [gensio_child_event, gensio_get_user_data, hh, hm, hr, swig_finish_call_rv,
      PyObject_GetAttrString, swig_make_ref_i, SWIG_NewPointerObj, OI_PY_STATE_GET,
      OI_PY_STATE_PUT, emit, PyTuple_New, PyTuple_SET_ITEM, Py_INCREF, PyInt_FromLong,
      PyErr_Format, wake_curr_waiter, Py_DECREF_tuple, Py_DECREF, swig_free_ref_check,
      swig_free_ref, emitted, lookups, calls, raised, wakes]
  · subst he hn
    simp [gensio_child_event, gensio_get_user_data, hh, hm, swig_finish_call,
      swig_finish_call_rv, PyObject_GetAttrString, swig_make_ref_i, SWIG_NewPointerObj,
      OI_PY_STATE_GET, OI_PY_STATE_PUT, emit, PyTuple_New, PyTuple_SET_ITEM, Py_INCREF,
      PyErr_Format, wake_curr_waiter, Py_DECREF_tuple, Py_DECREF, swig_free_ref_check,
      swig_free_ref, emitted, lookups, calls, raised, wakes]
  · subst he hn
    simp [gensio_child_event, gensio_get_user_data, hh, hm, swig_finish_call,
      swig_finish_call_rv, PyObject_GetAttrString, swig_make_ref_i, SWIG_NewPointerObj,
      OI_PY_STATE_GET, OI_PY_STATE_PUT, emit, PyTuple_New, PyTuple_SET_ITEM, Py_INCREF,
      PyErr_Format, wake_curr_waiter, Py_DECREF_tuple, Py_DECREF, swig_free_ref_check,
      swig_free_ref, emitted, lookups, calls, raised, wakes]

/-- Witness of the amended C5: a writable event, the listener has no method. -/
theorem gensio_child_event_missing_method_witness :
    (sampleGensio (some emptyListener)).user_data.handler_val = some emptyListener ∧
    emptyListener.methods "write_callback" = none ∧
    wakes (emitted cleanState (gensio_child_event sampleLibc
      (sampleGensio (some emptyListener)) gensio_event.GENSIO_EVENT_WRITE_READY 0 [] 0 0
      cleanState).2.2) = 1 ∧
    (gensio_child_event sampleLibc (sampleGensio (some emptyListener))
      gensio_event.GENSIO_EVENT_WRITE_READY 0 [] 0 0 cleanState).1 = 0 :=
  ⟨rfl, rfl,
   (gensio_child_event_missing_method sampleLibc (sampleGensio (some emptyListener))
     gensio_event.GENSIO_EVENT_WRITE_READY 0 [] 0 0 cleanState emptyListener
     "write_callback" rfl (Or.inr (Or.inl ⟨rfl, rfl⟩)) rfl).2.2.2.2.1,
   (gensio_child_event_missing_method sampleLibc (sampleGensio (some emptyListener))
     gensio_event.GENSIO_EVENT_WRITE_READY 0 [] 0 0 cleanState emptyListener
     "write_callback" rfl (Or.inr (Or.inl ⟨rfl, rfl⟩)) rfl).2.2.2.2.2⟩

/-! ## The serial callback table -/

theorem sgensio_call_no_handler (sio : sergensio) (val : Int) (func : String) (s : PyState)
    (hh : sio.user_data.handler_val = none) :
    lookups (emitted s (sgensio_call sio val func s)) = [] ∧
    calls (emitted s (sgensio_call sio val func s)) = [] ∧
    raised (emitted s (sgensio_call sio val func s))
      = [⟨PyExc.RuntimeError, "sergensio callback: gensio handler was not set"⟩] ∧
    wakes (emitted s (sgensio_call sio val func s)) = 1 := by
  simp [sgensio_call, sergensio_get_user_data, hh, OI_PY_STATE_GET, OI_PY_STATE_PUT, emit,
    PyErr_Format, wake_curr_waiter, emitted, lookups, calls, raised, wakes]

theorem sgensio_call_handler (sio : sergensio) (val : Int) (func : String) (s : PyState)
    (h : Listener) (hh : sio.user_data.handler_val = some h) :
    lookups (emitted s (sgensio_call sio val func s)) = [(h.id, func)] ∧
    tupleReleases (emitted s (sgensio_call sio val func s))
      = [[PyVal.Ptr s.nextId sio.item swig_type_info.sergensio, PyVal.Int val]] ∧
    (h.methods func = none → calls (emitted s (sgensio_call sio val func s)) = []) ∧
    (∀ p, h.methods func = some p → calls (emitted s (sgensio_call sio val func s))
      = [(h.id, func, [PyVal.Ptr s.nextId sio.item swig_type_info.sergensio,
          PyVal.Int val])]) := by
  cases hm : h.methods func with
  | none =>
    simp [sgensio_call, sergensio_get_user_data, hh, hm, swig_finish_call,
      swig_finish_call_rv, PyObject_GetAttrString, swig_make_ref_i, SWIG_NewPointerObj,
      OI_PY_STATE_GET, OI_PY_STATE_PUT, emit, PyTuple_New, PyTuple_SET_ITEM, Py_INCREF,
      PyInt_FromLong, PyErr_Format, wake_curr_waiter, Py_DECREF_tuple, Py_DECREF,
      swig_free_ref_check, swig_free_ref, emitted, lookups, calls, tupleReleases]
  | some p =>
    cases hp : p [PyVal.Ptr s.nextId sio.item swig_type_info.sergensio, PyVal.Int val] with
    | raises e =>
      simp [sgensio_call, sergensio_get_user_data, hh, hm, hp, swig_finish_call,
        swig_finish_call_rv, PyObject_GetAttrString, PyObject_CallObject, swig_make_ref_i,
        SWIG_NewPointerObj, OI_PY_STATE_GET, OI_PY_STATE_PUT, emit, PyTuple_New,
        PyTuple_SET_ITEM, Py_INCREF, PyInt_FromLong, wake_curr_waiter, Py_DECREF_tuple,
        Py_DECREF, swig_free_ref_check, swig_free_ref, PyErr_Occurred, emitted, lookups,
        calls, tupleReleases]
    | returns v =>
      cases hpd : s.pending <;>
      simp [sgensio_call, sergensio_get_user_data, hh, hm, hp, hpd, swig_finish_call,
        swig_finish_call_rv, PyObject_GetAttrString, PyObject_CallObject, swig_make_ref_i,
        SWIG_NewPointerObj, OI_PY_STATE_GET, OI_PY_STATE_PUT, emit, PyTuple_New,
        PyTuple_SET_ITEM, Py_INCREF, PyInt_FromLong, wake_curr_waiter, Py_DECREF_tuple,
        Py_DECREF, swig_free_ref_check, swig_free_ref, PyErr_Occurred, emitted, lookups,
        calls, tupleReleases]

theorem sgensio_flowcontrol_state_no_handler (sio : sergensio) (val : Bool) (s : PyState)
    (hh : sio.user_data.handler_val = none) :
    lookups (emitted s (sgensio_flowcontrol_state sio val s)) = [] ∧
    calls (emitted s (sgensio_flowcontrol_state sio val s)) = [] ∧
    raised (emitted s (sgensio_flowcontrol_state sio val s))
      = [⟨PyExc.RuntimeError, "sergensio callback: gensio handler was not set"⟩] ∧
    wakes (emitted s (sgensio_flowcontrol_state sio val s)) = 1 := by
  simp [sgensio_flowcontrol_state, sergensio_get_user_data, hh, OI_PY_STATE_GET,
    OI_PY_STATE_PUT, emit, PyErr_Format, wake_curr_waiter, emitted, lookups, calls, raised,
    wakes]

theorem sgensio_flowcontrol_state_handler (sio : sergensio) (val : Bool) (s : PyState)
    (h : Listener) (hh : sio.user_data.handler_val = some h) :
    lookups (emitted s (sgensio_flowcontrol_state sio val s)) = [(h.id, "flowcontrol_state")] ∧
    tupleReleases (emitted s (sgensio_flowcontrol_state sio val s))
      = [[PyVal.Ptr s.nextId sio.item swig_type_info.sergensio, PyVal.Bool val]] ∧
    (h.methods "flowcontrol_state" = none →
      calls (emitted s (sgensio_flowcontrol_state sio val s)) = []) ∧
    (∀ p, h.methods "flowcontrol_state" = some p →
      calls (emitted s (sgensio_flowcontrol_state sio val s))
        = [(h.id, "flowcontrol_state",
            [PyVal.Ptr s.nextId sio.item swig_type_info.sergensio, PyVal.Bool val])]) := by
  cases hm : h.methods "flowcontrol_state" with
  | none =>
    simp [sgensio_flowcontrol_state, sergensio_get_user_data, hh, hm, swig_finish_call,
      swig_finish_call_rv, PyObject_GetAttrString, swig_make_ref_i, SWIG_NewPointerObj,
      OI_PY_STATE_GET, OI_PY_STATE_PUT, emit, PyTuple_New, PyTuple_SET_ITEM, Py_INCREF,
      PyBool_FromLong, PyErr_Format, wake_curr_waiter, Py_DECREF_tuple, Py_DECREF,
      swig_free_ref_check, swig_free_ref, emitted, lookups, calls, tupleReleases]
  | some p =>
    cases hp : p [PyVal.Ptr s.nextId sio.item swig_type_info.sergensio, PyVal.Bool val] with
    | raises e =>
      simp [sgensio_flowcontrol_state, sergensio_get_user_data, hh, hm, hp, swig_finish_call,
        swig_finish_call_rv, PyObject_GetAttrString, PyObject_CallObject, swig_make_ref_i,
        SWIG_NewPointerObj, OI_PY_STATE_GET, OI_PY_STATE_PUT, emit, PyTuple_New,
        PyTuple_SET_ITEM, Py_INCREF, PyBool_FromLong, wake_curr_waiter, Py_DECREF_tuple,
        Py_DECREF, swig_free_ref_check, swig_free_ref, PyErr_Occurred, emitted, lookups,
        calls, tupleReleases]
    | returns v =>
      cases hpd : s.pending <;>
      simp [sgensio_flowcontrol_state, sergensio_get_user_data, hh, hm, hp, hpd,
        swig_finish_call, swig_finish_call_rv, PyObject_GetAttrString, PyObject_CallObject,
        swig_make_ref_i, SWIG_NewPointerObj, OI_PY_STATE_GET, OI_PY_STATE_PUT, emit,
        PyTuple_New, PyTuple_SET_ITEM, Py_INCREF, PyBool_FromLong, wake_curr_waiter,
        Py_DECREF_tuple, Py_DECREF, swig_free_ref_check, swig_free_ref, PyErr_Occurred,
        emitted, lookups, calls, tupleReleases]

/-- C7: for each of the 13 entries of `gen_scbs`, listed here with its method
name and with the Python value built from the native value (an integer equal
to `v`, a boolean equal to `b` for `flowcontrol_state`): when the handler is
set, the entry looks up exactly one method, the one of that name on the
persistent handler, hands the invoker the two-item tuple (proxy of the serial
object, value), and invokes the method exactly once with these two arguments
if the handler has it, and nothing otherwise; when the handler is not set it
looks up and invokes nothing, raises exactly one error, the `RuntimeError`
"sergensio callback: gensio handler was not set", and wakes the waiter once. -/
theorem gen_scbs_entries (sio : sergensio) (v : Int) (b : Bool) (s : PyState)
    (entry : PyState → PyState) (name : String) (value : PyVal)
    (hentry : (entry, name, value) ∈
      [ (gen_scbs.modemstate sio v, "modemstate", PyVal.Int v),
        (gen_scbs.linestate sio v, "linestate", PyVal.Int v),
        (gen_scbs.flowcontrol_state sio b, "flowcontrol_state", PyVal.Bool b),
        (gen_scbs.flush sio v, "sflush", PyVal.Int v),
        (gen_scbs.baud sio v, "sbaud", PyVal.Int v),
        (gen_scbs.datasize sio v, "sdatasize", PyVal.Int v),
        (gen_scbs.parity sio v, "sparity", PyVal.Int v),
        (gen_scbs.stopbits sio v, "sstopbits", PyVal.Int v),
        (gen_scbs.flowcontrol sio v, "sflowcontrol", PyVal.Int v),
        (gen_scbs.iflowcontrol sio v, "siflowcontrol", PyVal.Int v),
        (gen_scbs.sbreak sio v, "ssbreak", PyVal.Int v),
        (gen_scbs.dtr sio v, "sdtr", PyVal.Int v),
        (gen_scbs.rts sio v, "srts", PyVal.Int v) ]) :
    let evs := emitted s (entry s)
    (∀ h, sio.user_data.handler_val = some h →
      lookups evs = [(h.id, name)] ∧
      tupleReleases evs = [[PyVal.Ptr s.nextId sio.item swig_type_info.sergensio, value]] ∧
      (h.methods name = none → calls evs = []) ∧
      (∀ p, h.methods name = some p → calls evs
        = [(h.id, name, [PyVal.Ptr s.nextId sio.item swig_type_info.sergensio, value])])) ∧
    (sio.user_data.handler_val = none →
      lookups evs = [] ∧ calls evs = [] ∧
      raised evs = [⟨PyExc.RuntimeError, "sergensio callback: gensio handler was not set"⟩] ∧
      wakes evs = 1) := by
  simp only [List.mem_cons, List.mem_singleton, List.not_mem_nil, or_false, Prod.mk.injEq]
    at hentry
  rcases hentry with h | h | h | h | h | h | h | h | h | h | h | h | h
  all_goals
    obtain ⟨hentry, hname, hvalue⟩ := h
    subst hentry hname hvalue
    first
      | exact ⟨fun h hh => sgensio_flowcontrol_state_handler sio b s h hh,
          fun hh => sgensio_flowcontrol_state_no_handler sio b s hh⟩
      | exact ⟨fun h hh => sgensio_call_handler sio v _ s h hh,
          fun hh => sgensio_call_no_handler sio v _ s hh⟩

/-- Witness of C7: the `baud` entry on a handle whose listener has the method. -/
theorem gen_scbs_entries_witness :
    lookups (emitted cleanState (gen_scbs.baud (sampleSergensio (some sampleListener)) 9600
      cleanState)) = [(7, "sbaud")] ∧
    calls (emitted cleanState (gen_scbs.baud (sampleSergensio (some sampleListener)) 9600
      cleanState))
      = [(7, "sbaud", [PyVal.Ptr 0 200 swig_type_info.sergensio, PyVal.Int 9600])] :=
  ⟨((gen_scbs_entries (sampleSergensio (some sampleListener)) 9600 false cleanState
      (gen_scbs.baud (sampleSergensio (some sampleListener)) 9600) "sbaud" (PyVal.Int 9600)
      (by simp)).1 sampleListener rfl).1,
   ((gen_scbs_entries (sampleSergensio (some sampleListener)) 9600 false cleanState
      (gen_scbs.baud (sampleSergensio (some sampleListener)) 9600) "sbaud" (PyVal.Int 9600)
      (by simp)).1 sampleListener rfl).2.2.2 _ rfl⟩

/-! ## The one-shot completions -/

theorem gensio_open_done_facts (io : gensio) (err : Int) (cb : Listener) (s : PyState) :
    acquires (emitted s (gensio_open_done io err cb s))
      = releases (emitted s (gensio_open_done io err cb s)) ∧
    guardedFrom 0 (emitted s (gensio_open_done io err cb s)) = true ∧
    lookups (emitted s (gensio_open_done io err cb s)) = [(cb.id, "open_done")] ∧
    cbNet cb.id (emitted s (gensio_open_done io err cb s)) = -1 ∧
    minted (emitted s (gensio_open_done io err cb s))
      = [(s.nextId, io.item, swig_type_info.gensio)] ∧
    proxyNet s.nextId (emitted s (gensio_open_done io err cb s)) = 0 := by
  cases hm : cb.methods "open_done" with
  | none =>
    simp [gensio_open_done, hm, swig_finish_call, swig_finish_call_rv, PyObject_GetAttrString,
      PyObject_CallObject, swig_make_ref_i, SWIG_NewPointerObj, OI_PY_STATE_GET,
      OI_PY_STATE_PUT, emit, PyTuple_New, PyTuple_SET_ITEM, Py_INCREF, PyInt_FromLong,
      PyErr_Format, wake_curr_waiter, Py_DECREF_tuple, Py_DECREF, swig_free_ref_check,
      swig_free_ref, PyErr_Occurred, deref_swig_cb_val, cleanup_sergensio_cbdata, emitted,
      acquires, releases, guardedFrom, needsGuard, proxyNet, proxyDelta, cbNet, cbDelta,
      lookups, minted]
  | some p =>
    cases hp : p [PyVal.Ptr s.nextId io.item swig_type_info.gensio, PyVal.Int err] with
    | raises e =>
      simp [gensio_open_done, hm, hp, swig_finish_call, swig_finish_call_rv, PyObject_GetAttrString,
      PyObject_CallObject, swig_make_ref_i, SWIG_NewPointerObj, OI_PY_STATE_GET,
      OI_PY_STATE_PUT, emit, PyTuple_New, PyTuple_SET_ITEM, Py_INCREF, PyInt_FromLong,
      PyErr_Format, wake_curr_waiter, Py_DECREF_tuple, Py_DECREF, swig_free_ref_check,
      swig_free_ref, PyErr_Occurred, deref_swig_cb_val, cleanup_sergensio_cbdata, emitted,
      acquires, releases, guardedFrom, needsGuard, proxyNet, proxyDelta, cbNet, cbDelta,
      lookups, minted]
    | returns v =>
      cases hpd : s.pending <;>
      simp [gensio_open_done, hm, hp, hpd, swig_finish_call, swig_finish_call_rv, PyObject_GetAttrString,
      PyObject_CallObject, swig_make_ref_i, SWIG_NewPointerObj, OI_PY_STATE_GET,
      OI_PY_STATE_PUT, emit, PyTuple_New, PyTuple_SET_ITEM, Py_INCREF, PyInt_FromLong,
      PyErr_Format, wake_curr_waiter, Py_DECREF_tuple, Py_DECREF, swig_free_ref_check,
      swig_free_ref, PyErr_Occurred, deref_swig_cb_val, cleanup_sergensio_cbdata, emitted,
      acquires, releases, guardedFrom, needsGuard, proxyNet, proxyDelta, cbNet, cbDelta,
      lookups, minted]

theorem gensio_close_done_facts (io : gensio) (cb : Listener) (s : PyState) :
    acquires (emitted s (gensio_close_done io cb s))
      = releases (emitted s (gensio_close_done io cb s)) ∧
    guardedFrom 0 (emitted s (gensio_close_done io cb s)) = true ∧
    lookups (emitted s (gensio_close_done io cb s)) = [(cb.id, "close_done")] ∧
    cbNet cb.id (emitted s (gensio_close_done io cb s)) = -1 ∧
    minted (emitted s (gensio_close_done io cb s))
      = [(s.nextId, io.item, swig_type_info.gensio)] ∧
    proxyNet s.nextId (emitted s (gensio_close_done io cb s)) = 0 := by
  cases hm : cb.methods "close_done" with
  | none =>
    simp [gensio_close_done, hm, swig_finish_call, swig_finish_call_rv, PyObject_GetAttrString,
      PyObject_CallObject, swig_make_ref_i, SWIG_NewPointerObj, OI_PY_STATE_GET,
      OI_PY_STATE_PUT, emit, PyTuple_New, PyTuple_SET_ITEM, Py_INCREF, PyInt_FromLong,
      PyErr_Format, wake_curr_waiter, Py_DECREF_tuple, Py_DECREF, swig_free_ref_check,
      swig_free_ref, PyErr_Occurred, deref_swig_cb_val, cleanup_sergensio_cbdata, emitted,
      acquires, releases, guardedFrom, needsGuard, proxyNet, proxyDelta, cbNet, cbDelta,
      lookups, minted]
  | some p =>
    cases hp : p [PyVal.Ptr s.nextId io.item swig_type_info.gensio] with
    | raises e =>
      simp [gensio_close_done, hm, hp, swig_finish_call, swig_finish_call_rv, PyObject_GetAttrString,
      PyObject_CallObject, swig_make_ref_i, SWIG_NewPointerObj, OI_PY_STATE_GET,
      OI_PY_STATE_PUT, emit, PyTuple_New, PyTuple_SET_ITEM, Py_INCREF, PyInt_FromLong,
      PyErr_Format, wake_curr_waiter, Py_DECREF_tuple, Py_DECREF, swig_free_ref_check,
      swig_free_ref, PyErr_Occurred, deref_swig_cb_val, cleanup_sergensio_cbdata, emitted,
      acquires, releases, guardedFrom, needsGuard, proxyNet, proxyDelta, cbNet, cbDelta,
      lookups, minted]
    | returns v =>
      cases hpd : s.pending <;>
      simp [gensio_close_done, hm, hp, hpd, swig_finish_call, swig_finish_call_rv, PyObject_GetAttrString,
      PyObject_CallObject, swig_make_ref_i, SWIG_NewPointerObj, OI_PY_STATE_GET,
      OI_PY_STATE_PUT, emit, PyTuple_New, PyTuple_SET_ITEM, Py_INCREF, PyInt_FromLong,
      PyErr_Format, wake_curr_waiter, Py_DECREF_tuple, Py_DECREF, swig_free_ref_check,
      swig_free_ref, PyErr_Occurred, deref_swig_cb_val, cleanup_sergensio_cbdata, emitted,
      acquires, releases, guardedFrom, needsGuard, proxyNet, proxyDelta, cbNet, cbDelta,
      lookups, minted]

theorem gensio_acc_shutdown_done_facts (acceptor : gensio_acceptor) (cb : Listener)
    (s : PyState) :
    acquires (emitted s (gensio_acc_shutdown_done acceptor cb s))
      = releases (emitted s (gensio_acc_shutdown_done acceptor cb s)) ∧
    guardedFrom 0 (emitted s (gensio_acc_shutdown_done acceptor cb s)) = true ∧
    lookups (emitted s (gensio_acc_shutdown_done acceptor cb s))
      = [(cb.id, "shutdown_done")] ∧
    cbNet cb.id (emitted s (gensio_acc_shutdown_done acceptor cb s)) = -1 ∧
    minted (emitted s (gensio_acc_shutdown_done acceptor cb s))
      = [(s.nextId, acceptor.item, swig_type_info.gensio_acceptor)] ∧
    proxyNet s.nextId (emitted s (gensio_acc_shutdown_done acceptor cb s)) = 0 := by
  cases hm : cb.methods "shutdown_done" with
  | none =>
    simp [gensio_acc_shutdown_done, hm, swig_finish_call, swig_finish_call_rv, PyObject_GetAttrString,
      PyObject_CallObject, swig_make_ref_i, SWIG_NewPointerObj, OI_PY_STATE_GET,
      OI_PY_STATE_PUT, emit, PyTuple_New, PyTuple_SET_ITEM, Py_INCREF, PyInt_FromLong,
      PyErr_Format, wake_curr_waiter, Py_DECREF_tuple, Py_DECREF, swig_free_ref_check,
      swig_free_ref, PyErr_Occurred, deref_swig_cb_val, cleanup_sergensio_cbdata, emitted,
      acquires, releases, guardedFrom, needsGuard, proxyNet, proxyDelta, cbNet, cbDelta,
      lookups, minted]
  | some p =>
    cases hp : p [PyVal.Ptr s.nextId acceptor.item swig_type_info.gensio_acceptor] with
    | raises e =>
      simp [gensio_acc_shutdown_done, hm, hp, swig_finish_call, swig_finish_call_rv, PyObject_GetAttrString,
      PyObject_CallObject, swig_make_ref_i, SWIG_NewPointerObj, OI_PY_STATE_GET,
      OI_PY_STATE_PUT, emit, PyTuple_New, PyTuple_SET_ITEM, Py_INCREF, PyInt_FromLong,
      PyErr_Format, wake_curr_waiter, Py_DECREF_tuple, Py_DECREF, swig_free_ref_check,
      swig_free_ref, PyErr_Occurred, deref_swig_cb_val, cleanup_sergensio_cbdata, emitted,
      acquires, releases, guardedFrom, needsGuard, proxyNet, proxyDelta, cbNet, cbDelta,
      lookups, minted]
    | returns v =>
      cases hpd : s.pending <;>
      simp [gensio_acc_shutdown_done, hm, hp, hpd, swig_finish_call, swig_finish_call_rv, PyObject_GetAttrString,
      PyObject_CallObject, swig_make_ref_i, SWIG_NewPointerObj, OI_PY_STATE_GET,
      OI_PY_STATE_PUT, emit, PyTuple_New, PyTuple_SET_ITEM, Py_INCREF, PyInt_FromLong,
      PyErr_Format, wake_curr_waiter, Py_DECREF_tuple, Py_DECREF, swig_free_ref_check,
      swig_free_ref, PyErr_Occurred, deref_swig_cb_val, cleanup_sergensio_cbdata, emitted,
      acquires, releases, guardedFrom, needsGuard, proxyNet, proxyDelta, cbNet, cbDelta,
      lookups, minted]

theorem sergensio_cb_facts (c : Libc) (sio : sergensio) (err val : Int)
    (cbd : sergensio_cbdata) (s : PyState) :
    acquires (emitted s (sergensio_cb c sio err val cbd s))
      = releases (emitted s (sergensio_cb c sio err val cbd s)) ∧
    guardedFrom 0 (emitted s (sergensio_cb c sio err val cbd s)) = true ∧
    lookups (emitted s (sergensio_cb c sio err val cbd s)) = [(cbd.h_val.id, cbd.cbname)] ∧
    cbNet cbd.h_val.id (emitted s (sergensio_cb c sio err val cbd s)) = -1 ∧
    minted (emitted s (sergensio_cb c sio err val cbd s))
      = [(s.nextId, sio.item, swig_type_info.gensio)] ∧
    proxyNet s.nextId (emitted s (sergensio_cb c sio err val cbd s)) = 1 := by
  by_cases he : err = 0
  · cases hm : cbd.h_val.methods cbd.cbname with
    | none =>
      simp [sergensio_cb, hm, he, swig_finish_call, swig_finish_call_rv, PyObject_GetAttrString,
      PyObject_CallObject, swig_make_ref_i, SWIG_NewPointerObj, OI_PY_STATE_GET,
      OI_PY_STATE_PUT, emit, PyTuple_New, PyTuple_SET_ITEM, Py_INCREF, PyInt_FromLong,
      PyErr_Format, wake_curr_waiter, Py_DECREF_tuple, Py_DECREF, swig_free_ref_check,
      swig_free_ref, PyErr_Occurred, deref_swig_cb_val, cleanup_sergensio_cbdata, emitted,
      acquires, releases, guardedFrom, needsGuard, proxyNet, proxyDelta, cbNet, cbDelta,
      lookups, minted]
    | some p =>
      cases hp : p [PyVal.Ptr s.nextId sio.item swig_type_info.gensio, PyVal.None,
          PyVal.Int val] with
      | raises e =>
        simp [sergensio_cb, hm, hp, he, swig_finish_call, swig_finish_call_rv, PyObject_GetAttrString,
      PyObject_CallObject, swig_make_ref_i, SWIG_NewPointerObj, OI_PY_STATE_GET,
      OI_PY_STATE_PUT, emit, PyTuple_New, PyTuple_SET_ITEM, Py_INCREF, PyInt_FromLong,
      PyErr_Format, wake_curr_waiter, Py_DECREF_tuple, Py_DECREF, swig_free_ref_check,
      swig_free_ref, PyErr_Occurred, deref_swig_cb_val, cleanup_sergensio_cbdata, emitted,
      acquires, releases, guardedFrom, needsGuard, proxyNet, proxyDelta, cbNet, cbDelta,
      lookups, minted]
      | returns v =>
        cases hpd : s.pending <;>
        simp [sergensio_cb, hm, hp, hpd, he, swig_finish_call, swig_finish_call_rv, PyObject_GetAttrString,
      PyObject_CallObject, swig_make_ref_i, SWIG_NewPointerObj, OI_PY_STATE_GET,
      OI_PY_STATE_PUT, emit, PyTuple_New, PyTuple_SET_ITEM, Py_INCREF, PyInt_FromLong,
      PyErr_Format, wake_curr_waiter, Py_DECREF_tuple, Py_DECREF, swig_free_ref_check,
      swig_free_ref, PyErr_Occurred, deref_swig_cb_val, cleanup_sergensio_cbdata, emitted,
      acquires, releases, guardedFrom, needsGuard, proxyNet, proxyDelta, cbNet, cbDelta,
      lookups, minted]
  · cases hm : cbd.h_val.methods cbd.cbname with
    | none =>
      simp [sergensio_cb, hm, he, swig_finish_call, swig_finish_call_rv, PyObject_GetAttrString,
      PyObject_CallObject, swig_make_ref_i, SWIG_NewPointerObj, OI_PY_STATE_GET,
      OI_PY_STATE_PUT, emit, PyTuple_New, PyTuple_SET_ITEM, Py_INCREF, PyInt_FromLong,
      PyErr_Format, wake_curr_waiter, Py_DECREF_tuple, Py_DECREF, swig_free_ref_check,
      swig_free_ref, PyErr_Occurred, deref_swig_cb_val, cleanup_sergensio_cbdata, emitted,
      acquires, releases, guardedFrom, needsGuard, proxyNet, proxyDelta, cbNet, cbDelta,
      lookups, minted]
    | some p =>
      cases hp : p [PyVal.Ptr s.nextId sio.item swig_type_info.gensio,
          PyVal.Str (c.strerror err), PyVal.Int val] with
      | raises e =>
        simp [sergensio_cb, hm, hp, he, swig_finish_call, swig_finish_call_rv, PyObject_GetAttrString,
      PyObject_CallObject, swig_make_ref_i, SWIG_NewPointerObj, OI_PY_STATE_GET,
      OI_PY_STATE_PUT, emit, PyTuple_New, PyTuple_SET_ITEM, Py_INCREF, PyInt_FromLong,
      PyErr_Format, wake_curr_waiter, Py_DECREF_tuple, Py_DECREF, swig_free_ref_check,
      swig_free_ref, PyErr_Occurred, deref_swig_cb_val, cleanup_sergensio_cbdata, emitted,
      acquires, releases, guardedFrom, needsGuard, proxyNet, proxyDelta, cbNet, cbDelta,
      lookups, minted]
      | returns v =>
        cases hpd : s.pending <;>
        simp [sergensio_cb, hm, hp, hpd, he, swig_finish_call, swig_finish_call_rv, PyObject_GetAttrString,
      PyObject_CallObject, swig_make_ref_i, SWIG_NewPointerObj, OI_PY_STATE_GET,
      OI_PY_STATE_PUT, emit, PyTuple_New, PyTuple_SET_ITEM, Py_INCREF, PyInt_FromLong,
      PyErr_Format, wake_curr_waiter, Py_DECREF_tuple, Py_DECREF, swig_free_ref_check,
      swig_free_ref, PyErr_Occurred, deref_swig_cb_val, cleanup_sergensio_cbdata, emitted,
      acquires, releases, guardedFrom, needsGuard, proxyNet, proxyDelta, cbNet, cbDelta,
      lookups, minted]

/-- C3, as the code behaves: each of `gensio_open_done`, `gensio_close_done`,
`gensio_acc_shutdown_done` and `sergensio_cb` makes exactly one invocation
attempt, on the callback handle bound to the operation and under its bound
method name, and drops exactly one reference to that handle, whatever the
outcome of the call; each mints exactly one proxy.  For the first three the
proxy's reference count is back to zero on return; `sergensio_cb` never frees
its proxy, whose count stays at one. -/
theorem one_shot_completions (c : Libc) (io : gensio) (acceptor : gensio_acceptor)
    (sio : sergensio) (err val : Int) (cb : Listener) (cbd : sergensio_cbdata)
    (s : PyState) :
    (lookups (emitted s (gensio_open_done io err cb s)) = [(cb.id, "open_done")] ∧
      cbNet cb.id (emitted s (gensio_open_done io err cb s)) = -1 ∧
      minted (emitted s (gensio_open_done io err cb s))
        = [(s.nextId, io.item, swig_type_info.gensio)] ∧
      proxyNet s.nextId (emitted s (gensio_open_done io err cb s)) = 0) ∧
    (lookups (emitted s (gensio_close_done io cb s)) = [(cb.id, "close_done")] ∧
      cbNet cb.id (emitted s (gensio_close_done io cb s)) = -1 ∧
      minted (emitted s (gensio_close_done io cb s))
        = [(s.nextId, io.item, swig_type_info.gensio)] ∧
      proxyNet s.nextId (emitted s (gensio_close_done io cb s)) = 0) ∧
    (lookups (emitted s (gensio_acc_shutdown_done acceptor cb s))
        = [(cb.id, "shutdown_done")] ∧
      cbNet cb.id (emitted s (gensio_acc_shutdown_done acceptor cb s)) = -1 ∧
      minted (emitted s (gensio_acc_shutdown_done acceptor cb s))
        = [(s.nextId, acceptor.item, swig_type_info.gensio_acceptor)] ∧
      proxyNet s.nextId (emitted s (gensio_acc_shutdown_done acceptor cb s)) = 0) ∧
    (lookups (emitted s (sergensio_cb c sio err val cbd s))
        = [(cbd.h_val.id, cbd.cbname)] ∧
      cbNet cbd.h_val.id (emitted s (sergensio_cb c sio err val cbd s)) = -1 ∧
      minted (emitted s (sergensio_cb c sio err val cbd s))
        = [(s.nextId, sio.item, swig_type_info.gensio)] ∧
      proxyNet s.nextId (emitted s (sergensio_cb c sio err val cbd s)) = 1) :=
  ⟨(gensio_open_done_facts io err cb s).2.2,
   (gensio_close_done_facts io cb s).2.2,
   (gensio_acc_shutdown_done_facts acceptor cb s).2.2,
   (sergensio_cb_facts c sio err val cbd s).2.2⟩

/-- C8, as the code behaves: for an open completion with native error code 0,
`gensio_open_done` invokes `open_done` once with two arguments, the proxy of the
handle and the Python integer 0; the data-ready path of `gensio_child_event`
with error code 0 passes `None` as its error indicator, and the two values
differ. -/
theorem gensio_open_done_passes_integer :
    calls (emitted cleanState (gensio_open_done (sampleGensio none) 0 sampleListener
      cleanState))
      = [(7, "open_done", [PyVal.Ptr 0 100 swig_type_info.gensio, PyVal.Int 0])] ∧
    calls (emitted cleanState (gensio_child_event sampleLibc
      (sampleGensio (some sampleListener)) gensio_event.GENSIO_EVENT_READ 0 [1, 2, 3] 3 0
      cleanState).2.2)
      = [(7, "read_callback", [PyVal.Ptr 0 100 swig_type_info.gensio, PyVal.None,
          PyVal.Bytes [1, 2, 3], PyVal.Int 0])] ∧
    PyVal.Int 0 ≠ PyVal.None := by
  refine ⟨?_, ?_, by decide⟩ <;>
  simp [gensio_open_done, gensio_child_event, gensio_get_user_data, sampleGensio,
    sampleListener, sampleLibc, cleanState, ulong_to_long, PyLong_AsUnsignedLong,
    ULONG_MAX, ulong_to_uint, swig_finish_call, swig_finish_call_rv, PyObject_GetAttrString,
      PyObject_CallObject, swig_make_ref_i, SWIG_NewPointerObj, OI_PY_STATE_GET,
      OI_PY_STATE_PUT, emit, PyTuple_New, PyTuple_SET_ITEM, Py_INCREF, PyInt_FromLong,
      PyErr_Format, wake_curr_waiter, Py_DECREF_tuple, Py_DECREF, swig_free_ref_check,
      swig_free_ref, PyErr_Occurred, deref_swig_cb_val, cleanup_sergensio_cbdata, emitted,
      acquires, releases, guardedFrom, needsGuard, proxyNet, proxyDelta, cbNet, cbDelta,
      lookups, minted, calls]

/-! ## The guard -/

theorem PyLong_AsUnsignedLong_state (o : PyVal) :
    ∃ (n : Nat) (f : Option PyErr → Option PyErr), ∀ s : PyState,
      PyLong_AsUnsignedLong o s = (n, { s with pending := f s.pending }) := by
  cases o with
  | Int n =>
    by_cases h1 : n < 0
    · exact ⟨ULONG_MAX, fun _ => some ⟨PyExc.OverflowError,
        "can't convert negative value to unsigned long"⟩,
        fun s => by simp [PyLong_AsUnsignedLong, h1]⟩
    · by_cases h2 : ((ULONG_MAX : Nat) : Int) < n
      · exact ⟨ULONG_MAX, fun _ => some ⟨PyExc.OverflowError, "long int too large to convert"⟩,
          fun s => by simp [PyLong_AsUnsignedLong, h1, h2]⟩
      · exact ⟨n.toNat, id, fun s => by simp [PyLong_AsUnsignedLong, h1, h2]⟩
  | Bool b => exact ⟨if b then 1 else 0, id, fun _ => rfl⟩
  | None =>
    exact ⟨ULONG_MAX, fun _ => some ⟨PyExc.SystemError, "bad argument to internal function"⟩,
      fun _ => rfl⟩
  | Str t =>
    exact ⟨ULONG_MAX, fun _ => some ⟨PyExc.SystemError, "bad argument to internal function"⟩,
      fun _ => rfl⟩
  | Bytes d =>
    exact ⟨ULONG_MAX, fun _ => some ⟨PyExc.SystemError, "bad argument to internal function"⟩,
      fun _ => rfl⟩
  | Ptr i a b =>
    exact ⟨ULONG_MAX, fun _ => some ⟨PyExc.SystemError, "bad argument to internal function"⟩,
      fun _ => rfl⟩
  | Other g =>
    exact ⟨ULONG_MAX, fun _ => some ⟨PyExc.SystemError, "bad argument to internal function"⟩,
      fun _ => rfl⟩
  | NULL =>
    exact ⟨ULONG_MAX, fun _ => some ⟨PyExc.SystemError, "bad argument to internal function"⟩,
      fun _ => rfl⟩

theorem gensio_child_event_read_guard (c : Libc) (io : gensio) (readerr : Int)
    (buf : List Nat) (buflen channel : Nat) (s : PyState) (h : Listener) (errind : PyVal)
    (hh : io.user_data.handler_val = some h)
    (herr : (readerr = 0 ∧ errind = PyVal.None) ∨
            (readerr ≠ 0 ∧ errind = PyVal.Str (c.strerror readerr))) :
    acquires (emitted s (gensio_child_event c io gensio_event.GENSIO_EVENT_READ readerr buf
        buflen channel s).2.2)
      = releases (emitted s (gensio_child_event c io gensio_event.GENSIO_EVENT_READ readerr
        buf buflen channel s).2.2) ∧
    guardedFrom 0 (emitted s (gensio_child_event c io gensio_event.GENSIO_EVENT_READ readerr
        buf buflen channel s).2.2) = true ∧
    (gensio_child_event c io gensio_event.GENSIO_EVENT_READ readerr buf buflen channel
        s).2.2.undefined = s.undefined := by
  cases hm : h.methods "read_callback" with
  | none =>
    rcases herr with ⟨hr, -⟩ | ⟨hr, -⟩ <;>
    simp [gensio_child_event, gensio_get_user_data, hh, hm, hr, swig_finish_call, swig_finish_call_rv, PyObject_GetAttrString,
      PyObject_CallObject, swig_make_ref_i, SWIG_NewPointerObj, OI_PY_STATE_GET,
      OI_PY_STATE_PUT, emit, PyTuple_New, PyTuple_SET_ITEM, Py_INCREF, PyInt_FromLong,
      PyBool_FromLong, PyErr_Format, wake_curr_waiter, Py_DECREF_tuple, Py_DECREF,
      swig_free_ref_check, swig_free_ref, PyErr_Occurred, emitted, acquires, releases,
      guardedFrom, needsGuard]
  | some p =>
    cases hp : p [PyVal.Ptr s.nextId io.item swig_type_info.gensio, errind,
        PyVal.Bytes (buf.take buflen), PyVal.Int (ulong_to_long channel)] with
    | raises e =>
      rcases herr with ⟨hr, he⟩ | ⟨hr, he⟩ <;>
      subst he <;>
      simp [gensio_child_event, gensio_get_user_data, hh, hm, hp, hr, swig_finish_call, swig_finish_call_rv, PyObject_GetAttrString,
      PyObject_CallObject, swig_make_ref_i, SWIG_NewPointerObj, OI_PY_STATE_GET,
      OI_PY_STATE_PUT, emit, PyTuple_New, PyTuple_SET_ITEM, Py_INCREF, PyInt_FromLong,
      PyBool_FromLong, PyErr_Format, wake_curr_waiter, Py_DECREF_tuple, Py_DECREF,
      swig_free_ref_check, swig_free_ref, PyErr_Occurred, emitted, acquires, releases,
      guardedFrom, needsGuard]
    | returns v =>
      obtain ⟨n, f, hconv⟩ := PyLong_AsUnsignedLong_state v
      cases hpd : s.pending with
      | none =>
        cases hf : f none <;>
        rcases herr with ⟨hr, he⟩ | ⟨hr, he⟩ <;>
        subst he <;>
        simp [gensio_child_event, gensio_get_user_data, hh, hm, hp, hr, hconv, hpd, hf, swig_finish_call, swig_finish_call_rv, PyObject_GetAttrString,
      PyObject_CallObject, swig_make_ref_i, SWIG_NewPointerObj, OI_PY_STATE_GET,
      OI_PY_STATE_PUT, emit, PyTuple_New, PyTuple_SET_ITEM, Py_INCREF, PyInt_FromLong,
      PyBool_FromLong, PyErr_Format, wake_curr_waiter, Py_DECREF_tuple, Py_DECREF,
      swig_free_ref_check, swig_free_ref, PyErr_Occurred, emitted, acquires, releases,
      guardedFrom, needsGuard]
      | some e0 =>
        cases hf : f (some e0) <;>
        rcases herr with ⟨hr, he⟩ | ⟨hr, he⟩ <;>
        subst he <;>
        simp [gensio_child_event, gensio_get_user_data, hh, hm, hp, hr, hconv, hpd, hf, swig_finish_call, swig_finish_call_rv, PyObject_GetAttrString,
      PyObject_CallObject, swig_make_ref_i, SWIG_NewPointerObj, OI_PY_STATE_GET,
      OI_PY_STATE_PUT, emit, PyTuple_New, PyTuple_SET_ITEM, Py_INCREF, PyInt_FromLong,
      PyBool_FromLong, PyErr_Format, wake_curr_waiter, Py_DECREF_tuple, Py_DECREF,
      swig_free_ref_check, swig_free_ref, PyErr_Occurred, emitted, acquires, releases,
      guardedFrom, needsGuard]

theorem gensio_child_event_guard (c : Libc) (io : gensio) (event : gensio_event)
    (readerr : Int) (buf : List Nat) (buflen channel : Nat) (s : PyState) :
    ((∃ h code, io.user_data.handler_val = some h ∧ event = gensio_event.other code) ∧
      (gensio_child_event c io event readerr buf buflen channel s).2.2.undefined = true ∧
      acquires (emitted s (gensio_child_event c io event readerr buf buflen channel s).2.2)
        = 2 ∧
      releases (emitted s (gensio_child_event c io event readerr buf buflen channel s).2.2)
        = 0) ∨
    ((¬ ∃ h code, io.user_data.handler_val = some h ∧ event = gensio_event.other code) ∧
      (gensio_child_event c io event readerr buf buflen channel s).2.2.undefined
        = s.undefined ∧
      acquires (emitted s (gensio_child_event c io event readerr buf buflen channel s).2.2)
        = releases (emitted s
            (gensio_child_event c io event readerr buf buflen channel s).2.2) ∧
      guardedFrom 0 (emitted s
        (gensio_child_event c io event readerr buf buflen channel s).2.2) = true) := by
  cases hh : io.user_data.handler_val with
  | none =>
    refine Or.inr ⟨by simp, ?_⟩
    simp [gensio_child_event, gensio_get_user_data, hh, swig_finish_call, swig_finish_call_rv, PyObject_GetAttrString,
      PyObject_CallObject, swig_make_ref_i, SWIG_NewPointerObj, OI_PY_STATE_GET,
      OI_PY_STATE_PUT, emit, PyTuple_New, PyTuple_SET_ITEM, Py_INCREF, PyInt_FromLong,
      PyBool_FromLong, PyErr_Format, wake_curr_waiter, Py_DECREF_tuple, Py_DECREF,
      swig_free_ref_check, swig_free_ref, PyErr_Occurred, emitted, acquires, releases,
      guardedFrom, needsGuard]
  | some h =>
    cases event with
    | GENSIO_EVENT_READ =>
      refine Or.inr ⟨by simp, ?_⟩
      by_cases hr : readerr = 0
      · have hg := gensio_child_event_read_guard c io readerr buf buflen channel s h
          PyVal.None hh (Or.inl ⟨hr, rfl⟩)
        exact ⟨hg.2.2, hg.1, hg.2.1⟩
      · have hg := gensio_child_event_read_guard c io readerr buf buflen channel s h
          (PyVal.Str (c.strerror readerr)) hh (Or.inr ⟨hr, rfl⟩)
        exact ⟨hg.2.2, hg.1, hg.2.1⟩
    | GENSIO_EVENT_WRITE_READY =>
      refine Or.inr ⟨by simp, ?_⟩
      cases hm : h.methods "write_callback" with
      | none =>
        simp [gensio_child_event, gensio_get_user_data, hh, hm, swig_finish_call, swig_finish_call_rv, PyObject_GetAttrString,
      PyObject_CallObject, swig_make_ref_i, SWIG_NewPointerObj, OI_PY_STATE_GET,
      OI_PY_STATE_PUT, emit, PyTuple_New, PyTuple_SET_ITEM, Py_INCREF, PyInt_FromLong,
      PyBool_FromLong, PyErr_Format, wake_curr_waiter, Py_DECREF_tuple, Py_DECREF,
      swig_free_ref_check, swig_free_ref, PyErr_Occurred, emitted, acquires, releases,
      guardedFrom, needsGuard]
      | some p =>
        cases hp : p [PyVal.Ptr s.nextId io.item swig_type_info.gensio] with
        | raises e =>
          simp [gensio_child_event, gensio_get_user_data, hh, hm, hp, swig_finish_call, swig_finish_call_rv, PyObject_GetAttrString,
      PyObject_CallObject, swig_make_ref_i, SWIG_NewPointerObj, OI_PY_STATE_GET,
      OI_PY_STATE_PUT, emit, PyTuple_New, PyTuple_SET_ITEM, Py_INCREF, PyInt_FromLong,
      PyBool_FromLong, PyErr_Format, wake_curr_waiter, Py_DECREF_tuple, Py_DECREF,
      swig_free_ref_check, swig_free_ref, PyErr_Occurred, emitted, acquires, releases,
      guardedFrom, needsGuard]
        | returns v =>
          cases hpd : s.pending <;>
          simp [gensio_child_event, gensio_get_user_data, hh, hm, hp, hpd, swig_finish_call, swig_finish_call_rv, PyObject_GetAttrString,
      PyObject_CallObject, swig_make_ref_i, SWIG_NewPointerObj, OI_PY_STATE_GET,
      OI_PY_STATE_PUT, emit, PyTuple_New, PyTuple_SET_ITEM, Py_INCREF, PyInt_FromLong,
      PyBool_FromLong, PyErr_Format, wake_curr_waiter, Py_DECREF_tuple, Py_DECREF,
      swig_free_ref_check, swig_free_ref, PyErr_Occurred, emitted, acquires, releases,
      guardedFrom, needsGuard]
    | GENSIO_EVENT_URGENT =>
      refine Or.inr ⟨by simp, ?_⟩
      cases hm : h.methods "urgent_callback" with
      | none =>
        simp [gensio_child_event, gensio_get_user_data, hh, hm, swig_finish_call, swig_finish_call_rv, PyObject_GetAttrString,
      PyObject_CallObject, swig_make_ref_i, SWIG_NewPointerObj, OI_PY_STATE_GET,
      OI_PY_STATE_PUT, emit, PyTuple_New, PyTuple_SET_ITEM, Py_INCREF, PyInt_FromLong,
      PyBool_FromLong, PyErr_Format, wake_curr_waiter, Py_DECREF_tuple, Py_DECREF,
      swig_free_ref_check, swig_free_ref, PyErr_Occurred, emitted, acquires, releases,
      guardedFrom, needsGuard]
      | some p =>
        cases hp : p [PyVal.Ptr s.nextId io.item swig_type_info.gensio] with
        | raises e =>
          simp [gensio_child_event, gensio_get_user_data, hh, hm, hp, swig_finish_call, swig_finish_call_rv, PyObject_GetAttrString,
      PyObject_CallObject, swig_make_ref_i, SWIG_NewPointerObj, OI_PY_STATE_GET,
      OI_PY_STATE_PUT, emit, PyTuple_New, PyTuple_SET_ITEM, Py_INCREF, PyInt_FromLong,
      PyBool_FromLong, PyErr_Format, wake_curr_waiter, Py_DECREF_tuple, Py_DECREF,
      swig_free_ref_check, swig_free_ref, PyErr_Occurred, emitted, acquires, releases,
      guardedFrom, needsGuard]
        | returns v =>
          cases hpd : s.pending <;>
          simp [gensio_child_event, gensio_get_user_data, hh, hm, hp, hpd, swig_finish_call, swig_finish_call_rv, PyObject_GetAttrString,
      PyObject_CallObject, swig_make_ref_i, SWIG_NewPointerObj, OI_PY_STATE_GET,
      OI_PY_STATE_PUT, emit, PyTuple_New, PyTuple_SET_ITEM, Py_INCREF, PyInt_FromLong,
      PyBool_FromLong, PyErr_Format, wake_curr_waiter, Py_DECREF_tuple, Py_DECREF,
      swig_free_ref_check, swig_free_ref, PyErr_Occurred, emitted, acquires, releases,
      guardedFrom, needsGuard]
    | other code =>
      refine Or.inl ⟨⟨h, code, rfl, rfl⟩, ?_⟩
      simp [gensio_child_event, gensio_get_user_data, hh, swig_finish_call, swig_finish_call_rv, PyObject_GetAttrString,
      PyObject_CallObject, swig_make_ref_i, SWIG_NewPointerObj, OI_PY_STATE_GET,
      OI_PY_STATE_PUT, emit, PyTuple_New, PyTuple_SET_ITEM, Py_INCREF, PyInt_FromLong,
      PyBool_FromLong, PyErr_Format, wake_curr_waiter, Py_DECREF_tuple, Py_DECREF,
      swig_free_ref_check, swig_free_ref, PyErr_Occurred, emitted, acquires, releases,
      guardedFrom, needsGuard]

theorem sgensio_call_guard (sio : sergensio) (val : Int) (func : String) (s : PyState) :
    acquires (emitted s (sgensio_call sio val func s))
      = releases (emitted s (sgensio_call sio val func s)) ∧
    guardedFrom 0 (emitted s (sgensio_call sio val func s)) = true := by
  cases hh : sio.user_data.handler_val with
  | none =>
    simp [sgensio_call, sergensio_get_user_data, hh, swig_finish_call, swig_finish_call_rv, PyObject_GetAttrString,
      PyObject_CallObject, swig_make_ref_i, SWIG_NewPointerObj, OI_PY_STATE_GET,
      OI_PY_STATE_PUT, emit, PyTuple_New, PyTuple_SET_ITEM, Py_INCREF, PyInt_FromLong,
      PyBool_FromLong, PyErr_Format, wake_curr_waiter, Py_DECREF_tuple, Py_DECREF,
      swig_free_ref_check, swig_free_ref, PyErr_Occurred, emitted, acquires, releases,
      guardedFrom, needsGuard]
  | some h =>
    cases hm : h.methods func with
    | none =>
      simp [sgensio_call, sergensio_get_user_data, hh, hm, swig_finish_call, swig_finish_call_rv, PyObject_GetAttrString,
      PyObject_CallObject, swig_make_ref_i, SWIG_NewPointerObj, OI_PY_STATE_GET,
      OI_PY_STATE_PUT, emit, PyTuple_New, PyTuple_SET_ITEM, Py_INCREF, PyInt_FromLong,
      PyBool_FromLong, PyErr_Format, wake_curr_waiter, Py_DECREF_tuple, Py_DECREF,
      swig_free_ref_check, swig_free_ref, PyErr_Occurred, emitted, acquires, releases,
      guardedFrom, needsGuard]
    | some p =>
      cases hp : p [PyVal.Ptr s.nextId sio.item swig_type_info.sergensio, PyVal.Int val] with
      | raises e =>
        simp [sgensio_call, sergensio_get_user_data, hh, hm, hp, swig_finish_call, swig_finish_call_rv, PyObject_GetAttrString,
      PyObject_CallObject, swig_make_ref_i, SWIG_NewPointerObj, OI_PY_STATE_GET,
      OI_PY_STATE_PUT, emit, PyTuple_New, PyTuple_SET_ITEM, Py_INCREF, PyInt_FromLong,
      PyBool_FromLong, PyErr_Format, wake_curr_waiter, Py_DECREF_tuple, Py_DECREF,
      swig_free_ref_check, swig_free_ref, PyErr_Occurred, emitted, acquires, releases,
      guardedFrom, needsGuard]
      | returns v =>
        cases hpd : s.pending <;>
        simp [sgensio_call, sergensio_get_user_data, hh, hm, hp, hpd, swig_finish_call, swig_finish_call_rv, PyObject_GetAttrString,
      PyObject_CallObject, swig_make_ref_i, SWIG_NewPointerObj, OI_PY_STATE_GET,
      OI_PY_STATE_PUT, emit, PyTuple_New, PyTuple_SET_ITEM, Py_INCREF, PyInt_FromLong,
      PyBool_FromLong, PyErr_Format, wake_curr_waiter, Py_DECREF_tuple, Py_DECREF,
      swig_free_ref_check, swig_free_ref, PyErr_Occurred, emitted, acquires, releases,
      guardedFrom, needsGuard]

theorem sgensio_flowcontrol_state_guard (sio : sergensio) (val : Bool) (s : PyState) :
    acquires (emitted s (sgensio_flowcontrol_state sio val s))
      = releases (emitted s (sgensio_flowcontrol_state sio val s)) ∧
    guardedFrom 0 (emitted s (sgensio_flowcontrol_state sio val s)) = true := by
  cases hh : sio.user_data.handler_val with
  | none =>
    simp [sgensio_flowcontrol_state, sergensio_get_user_data, hh, swig_finish_call, swig_finish_call_rv, PyObject_GetAttrString,
      PyObject_CallObject, swig_make_ref_i, SWIG_NewPointerObj, OI_PY_STATE_GET,
      OI_PY_STATE_PUT, emit, PyTuple_New, PyTuple_SET_ITEM, Py_INCREF, PyInt_FromLong,
      PyBool_FromLong, PyErr_Format, wake_curr_waiter, Py_DECREF_tuple, Py_DECREF,
      swig_free_ref_check, swig_free_ref, PyErr_Occurred, emitted, acquires, releases,
      guardedFrom, needsGuard]
  | some h =>
    cases hm : h.methods "flowcontrol_state" with
    | none =>
      simp [sgensio_flowcontrol_state, sergensio_get_user_data, hh, hm, swig_finish_call, swig_finish_call_rv, PyObject_GetAttrString,
      PyObject_CallObject, swig_make_ref_i, SWIG_NewPointerObj, OI_PY_STATE_GET,
      OI_PY_STATE_PUT, emit, PyTuple_New, PyTuple_SET_ITEM, Py_INCREF, PyInt_FromLong,
      PyBool_FromLong, PyErr_Format, wake_curr_waiter, Py_DECREF_tuple, Py_DECREF,
      swig_free_ref_check, swig_free_ref, PyErr_Occurred, emitted, acquires, releases,
      guardedFrom, needsGuard]
    | some p =>
      cases hp : p [PyVal.Ptr s.nextId sio.item swig_type_info.sergensio,
          PyVal.Bool val] with
      | raises e =>
        simp [sgensio_flowcontrol_state, sergensio_get_user_data, hh, hm, hp, swig_finish_call, swig_finish_call_rv, PyObject_GetAttrString,
      PyObject_CallObject, swig_make_ref_i, SWIG_NewPointerObj, OI_PY_STATE_GET,
      OI_PY_STATE_PUT, emit, PyTuple_New, PyTuple_SET_ITEM, Py_INCREF, PyInt_FromLong,
      PyBool_FromLong, PyErr_Format, wake_curr_waiter, Py_DECREF_tuple, Py_DECREF,
      swig_free_ref_check, swig_free_ref, PyErr_Occurred, emitted, acquires, releases,
      guardedFrom, needsGuard]
      | returns v =>
        cases hpd : s.pending <;>
        simp [sgensio_flowcontrol_state, sergensio_get_user_data, hh, hm, hp, hpd, swig_finish_call, swig_finish_call_rv, PyObject_GetAttrString,
      PyObject_CallObject, swig_make_ref_i, SWIG_NewPointerObj, OI_PY_STATE_GET,
      OI_PY_STATE_PUT, emit, PyTuple_New, PyTuple_SET_ITEM, Py_INCREF, PyInt_FromLong,
      PyBool_FromLong, PyErr_Format, wake_curr_waiter, Py_DECREF_tuple, Py_DECREF,
      swig_free_ref_check, swig_free_ref, PyErr_Occurred, emitted, acquires, releases,
      guardedFrom, needsGuard]

theorem gensio_acc_got_new_guard (acceptor : gensio_acceptor) (io : gensio)
    (malloc_ok : Bool) (s : PyState) :
    acquires (emitted s (gensio_acc_got_new acceptor io malloc_ok s).2)
      = releases (emitted s (gensio_acc_got_new acceptor io malloc_ok s).2) ∧
    guardedFrom 0 (emitted s (gensio_acc_got_new acceptor io malloc_ok s).2) = true := by
  cases malloc_ok with
  | false =>
    simp [gensio_acc_got_new, emitted, acquires, releases, guardedFrom]
  | true =>
    cases hs : io.is_sergensio <;>
    cases hm : acceptor.user_data.handler_val.methods "new_connection" with
    | none =>
      simp [gensio_acc_got_new, gensio_acc_get_user_data, hs, hm, swig_finish_call, swig_finish_call_rv, PyObject_GetAttrString,
      PyObject_CallObject, swig_make_ref_i, SWIG_NewPointerObj, OI_PY_STATE_GET,
      OI_PY_STATE_PUT, emit, PyTuple_New, PyTuple_SET_ITEM, Py_INCREF, PyInt_FromLong,
      PyBool_FromLong, PyErr_Format, wake_curr_waiter, Py_DECREF_tuple, Py_DECREF,
      swig_free_ref_check, swig_free_ref, PyErr_Occurred, emitted, acquires, releases,
      guardedFrom, needsGuard]
    | some p =>
      cases hp : p [PyVal.Ptr s.nextId acceptor.item swig_type_info.gensio_acceptor,
          PyVal.Ptr (s.nextId + 1) io.item swig_type_info.gensio] with
      | raises e =>
        simp [gensio_acc_got_new, gensio_acc_get_user_data, hs, hm, hp, swig_finish_call, swig_finish_call_rv, PyObject_GetAttrString,
      PyObject_CallObject, swig_make_ref_i, SWIG_NewPointerObj, OI_PY_STATE_GET,
      OI_PY_STATE_PUT, emit, PyTuple_New, PyTuple_SET_ITEM, Py_INCREF, PyInt_FromLong,
      PyBool_FromLong, PyErr_Format, wake_curr_waiter, Py_DECREF_tuple, Py_DECREF,
      swig_free_ref_check, swig_free_ref, PyErr_Occurred, emitted, acquires, releases,
      guardedFrom, needsGuard]
      | returns v =>
        cases hpd : s.pending <;>
        simp [gensio_acc_got_new, gensio_acc_get_user_data, hs, hm, hp, hpd, swig_finish_call, swig_finish_call_rv, PyObject_GetAttrString,
      PyObject_CallObject, swig_make_ref_i, SWIG_NewPointerObj, OI_PY_STATE_GET,
      OI_PY_STATE_PUT, emit, PyTuple_New, PyTuple_SET_ITEM, Py_INCREF, PyInt_FromLong,
      PyBool_FromLong, PyErr_Format, wake_curr_waiter, Py_DECREF_tuple, Py_DECREF,
      swig_free_ref_check, swig_free_ref, PyErr_Occurred, emitted, acquires, releases,
      guardedFrom, needsGuard]

/-- C9, as the code behaves: for `gensio_open_done`, `gensio_close_done`,
`sgensio_call`, `sgensio_flowcontrol_state`, `gensio_acc_shutdown_done`,
`gensio_acc_got_new` and `sergensio_cb`, on every input and outcome (handler
not set, method missing, listener raises, normal return, failed `malloc`),
the entry point returns with as many guard acquisitions as releases, and every
method lookup, listener invocation and reference-count change happened while
the guard was held.  The same holds for `gensio_child_event` on every path but
one: when a handler is set and the event kind is none of the three known
ones, it frees the `io_ref` it never assigned, which is undefined behaviour,
reached with the guard acquired twice and never released.  The last conjunct
evaluates that path at a concrete input. -/
theorem guard_paired_and_held (c : Libc) (io : gensio) (sio : sergensio)
    (acceptor : gensio_acceptor) (event : gensio_event) (err readerr val : Int) (flag : Bool)
    (func : String) (buf : List Nat) (buflen channel : Nat) (malloc_ok : Bool)
    (cb : Listener) (cbd : sergensio_cbdata) (s : PyState) :
    (acquires (emitted s (gensio_open_done io err cb s))
        = releases (emitted s (gensio_open_done io err cb s)) ∧
      guardedFrom 0 (emitted s (gensio_open_done io err cb s)) = true) ∧
    (acquires (emitted s (gensio_close_done io cb s))
        = releases (emitted s (gensio_close_done io cb s)) ∧
      guardedFrom 0 (emitted s (gensio_close_done io cb s)) = true) ∧
    (((∃ h code, io.user_data.handler_val = some h ∧ event = gensio_event.other code) ∧
        (gensio_child_event c io event readerr buf buflen channel s).2.2.undefined = true ∧
        acquires (emitted s
          (gensio_child_event c io event readerr buf buflen channel s).2.2) = 2 ∧
        releases (emitted s
          (gensio_child_event c io event readerr buf buflen channel s).2.2) = 0) ∨
      ((¬ ∃ h code, io.user_data.handler_val = some h ∧ event = gensio_event.other code) ∧
        (gensio_child_event c io event readerr buf buflen channel s).2.2.undefined
          = s.undefined ∧
        acquires (emitted s
          (gensio_child_event c io event readerr buf buflen channel s).2.2)
          = releases (emitted s
              (gensio_child_event c io event readerr buf buflen channel s).2.2) ∧
        guardedFrom 0 (emitted s
          (gensio_child_event c io event readerr buf buflen channel s).2.2) = true)) ∧
    (acquires (emitted s (sgensio_call sio val func s))
        = releases (emitted s (sgensio_call sio val func s)) ∧
      guardedFrom 0 (emitted s (sgensio_call sio val func s)) = true) ∧
    (acquires (emitted s (sgensio_flowcontrol_state sio flag s))
        = releases (emitted s (sgensio_flowcontrol_state sio flag s)) ∧
      guardedFrom 0 (emitted s (sgensio_flowcontrol_state sio flag s)) = true) ∧
    (acquires (emitted s (gensio_acc_shutdown_done acceptor cb s))
        = releases (emitted s (gensio_acc_shutdown_done acceptor cb s)) ∧
      guardedFrom 0 (emitted s (gensio_acc_shutdown_done acceptor cb s)) = true) ∧
    (acquires (emitted s (gensio_acc_got_new acceptor io malloc_ok s).2)
        = releases (emitted s (gensio_acc_got_new acceptor io malloc_ok s).2) ∧
      guardedFrom 0 (emitted s (gensio_acc_got_new acceptor io malloc_ok s).2) = true) ∧
    (acquires (emitted s (sergensio_cb c sio err val cbd s))
        = releases (emitted s (sergensio_cb c sio err val cbd s)) ∧
      guardedFrom 0 (emitted s (sergensio_cb c sio err val cbd s)) = true) ∧
    ((gensio_child_event sampleLibc (sampleGensio (some sampleListener))
        (gensio_event.other 42) 0 [1, 2, 3] 3 0 cleanState).2.2.undefined = true ∧
      emitted cleanState (gensio_child_event sampleLibc (sampleGensio (some sampleListener))
        (gensio_event.other 42) 0 [1, 2, 3] 3 0 cleanState).2.2
        = [Event.acquire, Event.acquire]) :=
  ⟨⟨(gensio_open_done_facts io err cb s).1, (gensio_open_done_facts io err cb s).2.1⟩,
   ⟨(gensio_close_done_facts io cb s).1, (gensio_close_done_facts io cb s).2.1⟩,
   gensio_child_event_guard c io event readerr buf buflen channel s,
   sgensio_call_guard sio val func s,
   sgensio_flowcontrol_state_guard sio flag s,
   ⟨(gensio_acc_shutdown_done_facts acceptor cb s).1,
    (gensio_acc_shutdown_done_facts acceptor cb s).2.1⟩,
   gensio_acc_got_new_guard acceptor io malloc_ok s,
   ⟨(sergensio_cb_facts c sio err val cbd s).1, (sergensio_cb_facts c sio err val cbd s).2.1⟩,
   by simp [gensio_child_event, gensio_get_user_data, sampleGensio, cleanState,
     OI_PY_STATE_GET, emit, emitted]⟩

end GensioPython
